import Mathlib

/-!
# Verification of the DateScrollBar timeline selector

A shallow embedding of `src/components/DateScrollBar.tsx`: the pure timeline
model (window construction, index lookup, pixel-offset math) and the stateful
selection / auto-return controller (interaction flags, the four timers, the
effect re-evaluation rules), modelled as an explicit state machine driven by a
virtual millisecond clock.

Modelling conventions:
* A JavaScript `Date` is a calendar day (`Int`, days from an arbitrary epoch)
  plus a time-of-day component that `isSameDay` ignores.
* React state/props (`selectedDate`, `disableAutoScroll`, `isScrolling`,
  `isUserInteracting`) trigger effect re-runs when their value changes; refs
  (`hasInitialized`, the timeout handles) do not.  Effect dependency arrays are
  honoured exactly: each `useEffect` re-runs only when one of its listed
  dependencies changed, and its cleanup cancels the timer it had armed.
* The host (`MoodTrackerScreen.handleDateSelect`) applies `onDateSelect(d)` by
  setting the `selectedDate` prop to `d`; this is modelled as part of
  processing the callback.
* Timers hold absolute virtual expiry times.  `tick` advances the clock by one
  millisecond and fires every due timer.  The `setIsUserInteracting(false)`
  timeouts in the source are never cleared, so they are kept as a list.
* The device's calendar day is held constant throughout a run of the main
  machine (`today` is a parameter); the per-render re-evaluation of
  `const today = new Date()` in the source is examined separately.
-/

/-- A JavaScript `Date`: a calendar day plus a time-of-day component.
`isSameDay` compares only the day. -/
structure JDate where
  day : Int
  tod : Nat
deriving DecidableEq, Repr

/-- date-fns `isSameDay`: calendar-day equality, ignoring time-of-day. -/
def isSameDay (a b : JDate) : Bool := a.day == b.day

/-- date-fns `addDays`: shifts the calendar day, keeping the time-of-day. -/
def addDays (d : JDate) (n : Int) : JDate := { d with day := d.day + n }

/-- `const DATE_ITEM_WIDTH = 80`. -/
def DATE_ITEM_WIDTH : Int := 80

/-- `const DATE_ITEM_MARGIN = 2`. -/
def DATE_ITEM_MARGIN : Int := 2

/-- The per-item pitch `DATE_ITEM_WIDTH + (DATE_ITEM_MARGIN * 2)` computed by
`centerDateInScroll`. -/
def itemTotalWidth : Int := DATE_ITEM_WIDTH + DATE_ITEM_MARGIN * 2

/-- The dates-generation effect: `for (let i = -7; i <= 7; i++)
dateArray.push(addDays(today, i))` — fifteen days centred on `today`,
computed once at mount. -/
def buildDates (today : JDate) : List JDate :=
  (List.range 15).map (fun i => addDays today ((i : Int) - 7))

/-- JavaScript `Array.prototype.findIndex`: the index of the first element
satisfying the predicate, or `-1` when none does. -/
def jsFindIndex (p : JDate → Bool) : List JDate → Int
  | [] => -1
  | d :: ds =>
    if p d then 0
    else
      let r := jsFindIndex p ds
      if r < 0 then -1 else r + 1

/-- A `scrollTo` command issued to the scroll view. -/
structure ScrollCmd where
  x : Int
  animated : Bool
deriving DecidableEq, Repr

/-- `centerDateInScroll(date, animated)`: find the date in the window by
calendar day; if found, scroll to `Math.max(0, index * itemTotalWidth)`; if not
found (or the window is empty), issue no command. -/
def centerDateInScroll (dates : List JDate) (date : JDate) (animated : Bool) :
    Option ScrollCmd :=
  if dates.length = 0 then none
  else
    let index := jsFindIndex (fun d => isSameDay d date) dates
    if 0 ≤ index then some { x := max 0 (index * itemTotalWidth), animated }
    else none


/-! ## The selection & auto-return controller -/

/-- An observable effect emitted by the controller: a `scrollTo` command to the
scroll view, or an invocation of the host's `onDateSelect` callback (which the
host, `MoodTrackerScreen.handleDateSelect`, answers by setting the
`selectedDate` prop to the given date). -/
inductive Eff where
  | scroll (x : Int) (animated : Bool)
  | select (d : JDate)
deriving DecidableEq, Repr

/-- The controller's full state: virtual clock, props, React state, refs, the
four kinds of pending timeouts (absolute expiry times), and the chronological
log of emitted effects.  The `setIsUserInteracting(false)` timeouts of the
source are never cleared, so they live in a list; the other three are single
cancellable handles. -/
structure CState where
  now : Nat
  selectedDate : JDate
  disableAutoScroll : Bool
  isScrolling : Bool
  isUserInteracting : Bool
  hasInitialized : Bool
  initTimer : Option Nat
  recenterTimer : Option Nat
  autoTimer : Option Nat
  graceTimers : List Nat
  log : List Eff
deriving DecidableEq, Repr

/-- The render-relevant values watched by the three `useEffect` dependency
arrays. -/
structure Deps where
  selectedDate : JDate
  isUserInteracting : Bool
  isScrolling : Bool
  disableAutoScroll : Bool
deriving DecidableEq, Repr

/-- The dependency snapshot of a state. -/
def depsOf (s : CState) : Deps :=
  ⟨s.selectedDate, s.isUserInteracting, s.isScrolling, s.disableAutoScroll⟩

/-- Append the `scrollTo` command of `centerDateInScroll(d, animated)` to the
log, or nothing when the date is not in the window. -/
def emitCenter (today d : JDate) (animated : Bool) (s : CState) : CState :=
  match centerDateInScroll (buildDates today) d animated with
  | some c => { s with log := s.log ++ [Eff.scroll c.x c.animated] }
  | none => s

/-- The initialization effect (deps `[selectedDate]`): its cleanup cancels the
pending 150 ms timeout; the body re-arms it while `hasInitialized` is still
false. -/
def initEffect (today : JDate) (s : CState) : CState :=
  if !s.hasInitialized && (buildDates today).length > 0 then
    { s with initTimer := some (s.now + 150) }
  else { s with initTimer := none }

/-- The centering-on-change effect (deps `[selectedDate, isUserInteracting,
isScrolling]`): cleanup cancels the pending 50 ms timeout; the body re-arms it
when initialized and no interaction or scroll is in progress. -/
def recenterEffect (today : JDate) (s : CState) : CState :=
  if s.hasInitialized && !s.isUserInteracting && !s.isScrolling &&
      (buildDates today).length > 0 then
    { s with recenterTimer := some (s.now + 50) }
  else { s with recenterTimer := none }

/-- The four guard conditions of the auto-scroll effect, checked both when
arming and again inside the timeout body: auto-scroll disabled, already on
`today`, user interacting, or scrolling. -/
def autoScrollGuard (disableAutoScroll : Bool) (selectedDate today : JDate)
    (isUserInteracting isScrolling : Bool) : Bool :=
  disableAutoScroll || isSameDay selectedDate today ||
    isUserInteracting || isScrolling

/-- The auto-scroll effect (deps `[selectedDate, isUserInteracting,
isScrolling, onDateSelect, disableAutoScroll]`): always clears any existing
timeout first (both the cleanup and the body do), then arms a fresh 6000 ms
timeout only if every guard is clear. -/
def autoEffect (today : JDate) (s : CState) : CState :=
  if autoScrollGuard s.disableAutoScroll s.selectedDate today
      s.isUserInteracting s.isScrolling then
    { s with autoTimer := none }
  else { s with autoTimer := some (s.now + 6000) }

/-- Re-run the initialization effect only when its dependency array
`[selectedDate]` changed relative to the previous render's snapshot `old`. -/
def initStep (today : JDate) (old : Deps) (s : CState) : CState :=
  if old.selectedDate = s.selectedDate then s else initEffect today s

/-- Re-run the centering-on-change effect only when one of its dependencies
`[selectedDate, isUserInteracting, isScrolling]` changed. -/
def recenterStep (today : JDate) (old : Deps) (s : CState) : CState :=
  if old.selectedDate = s.selectedDate ∧
      old.isUserInteracting = s.isUserInteracting ∧
      old.isScrolling = s.isScrolling then s else recenterEffect today s

/-- Re-run the auto-scroll effect only when one of its dependencies
`[selectedDate, isUserInteracting, isScrolling, onDateSelect,
disableAutoScroll]` changed. -/
def autoStep (today : JDate) (old : Deps) (s : CState) : CState :=
  if depsOf s = old then s else autoEffect today s

/-- Re-run, in source order, every effect whose dependency array changed
relative to the previous render's snapshot `old`.  Effects whose dependencies
are unchanged are left alone, as React leaves them. -/
def runEffects (today : JDate) (old : Deps) (s : CState) : CState :=
  autoStep today old (recenterStep today old (initStep today old s))

/-- The externally driven events: `handleDatePress`, `handleScrollBeginDrag`,
`handleScrollEndDrag`, `handleMomentumScrollEnd`, and a host-side change of
the `selectedDate` / `disableAutoScroll` props. -/
inductive Ev where
  | tap (d : JDate)
  | dragBegin
  | dragEnd
  | momentumEnd
  | extChange (d : JDate) (suppress : Bool)
deriving DecidableEq, Repr

/-- Process one event: run the handler's synchronous body (including the
`requestAnimationFrame` centering of a tap, which lands before any timer), then
re-run the effects whose dependencies changed. -/
def step (today : JDate) (s : CState) (e : Ev) : CState :=
  let old := depsOf s
  match e with
  | .tap d =>
    let s1 := { s with isUserInteracting := true, autoTimer := none }
    let s2 := { s1 with log := s1.log ++ [Eff.select d], selectedDate := d }
    let s3 := emitCenter today d true s2
    let s4 := { s3 with graceTimers := s3.graceTimers ++ [s3.now + 400] }
    runEffects today old s4
  | .dragBegin =>
    runEffects today old
      { s with isUserInteracting := true, isScrolling := true, autoTimer := none }
  | .dragEnd =>
    runEffects today old
      { s with isScrolling := false, graceTimers := s.graceTimers ++ [s.now + 500] }
  | .momentumEnd =>
    runEffects today old
      { s with isScrolling := false, graceTimers := s.graceTimers ++ [s.now + 500] }
  | .extChange d sup =>
    runEffects today old { s with selectedDate := d, disableAutoScroll := sup }

/-- Fire the 150 ms initialization timeout if due: a one-shot non-animated
centering on the current `selectedDate`, then latch `hasInitialized`.  Both
writes touch only refs, so no effect re-runs. -/
def fireInit (today : JDate) (s : CState) : CState :=
  match s.initTimer with
  | some t =>
    if t ≤ s.now then
      let s1 := { s with initTimer := none }
      if (buildDates today).length > 0 then
        { emitCenter today s1.selectedDate false s1 with hasInitialized := true }
      else s1
    else s
  | none => s

/-- Fire the 50 ms re-centering timeout if due: re-validate the interaction
flags at execution time, then center the current `selectedDate` animated. -/
def fireRecenter (today : JDate) (s : CState) : CState :=
  match s.recenterTimer with
  | some t =>
    if t ≤ s.now then
      let s1 := { s with recenterTimer := none }
      if !s1.isUserInteracting && !s1.isScrolling then
        emitCenter today s1.selectedDate true s1
      else s1
    else s
  | none => s

/-- Fire every due `setIsUserInteracting(false)` grace timeout: the flag drops,
and the dependency change re-runs the effects. -/
def fireGrace (today : JDate) (s : CState) : CState :=
  if s.graceTimers.any (fun g => decide (g ≤ s.now)) then
    let old := depsOf s
    let s1 := { s with isUserInteracting := false,
                       graceTimers := s.graceTimers.filter (fun g => decide (s.now < g)) }
    runEffects today old s1
  else s

/-- Fire the 6000 ms auto-return timeout if due: re-check all four guards at
execution time; if any holds, do nothing; otherwise center `today` animated and
invoke `onDateSelect(today)`, which the host answers by setting the
`selectedDate` prop, re-running the effects. -/
def fireAuto (today : JDate) (s : CState) : CState :=
  match s.autoTimer with
  | some t =>
    if t ≤ s.now then
      let old := depsOf s
      let s1 := { s with autoTimer := none }
      if autoScrollGuard s1.disableAutoScroll s1.selectedDate today
          s1.isUserInteracting s1.isScrolling then s1
      else
        let s2 := emitCenter today today true s1
        let s3 := { s2 with log := s2.log ++ [Eff.select today], selectedDate := today }
        runEffects today old s3
    else s
  | none => s

/-- Advance the virtual clock one millisecond and fire every due timeout. -/
def tick (today : JDate) (s : CState) : CState :=
  fireAuto today (fireGrace today (fireRecenter today (fireInit today
    { s with now := s.now + 1 })))

/-- Let `n` milliseconds pass with no external event. -/
def ticks (today : JDate) : Nat → CState → CState
  | 0, s => s
  | n + 1, s => ticks today n (tick today s)

/-- A run step: an external event, or one millisecond of quiet. -/
inductive Act where
  | ev (e : Ev)
  | tick
deriving DecidableEq, Repr

/-- Execute a whole run. -/
def exec (today : JDate) : CState → List Act → CState
  | s, [] => s
  | s, Act.ev e :: as => exec today (step today s e) as
  | s, Act.tick :: as => exec today (tick today s) as

/-- The state right after mount: initial props, cleared flags and refs, then
the initial run of all three effects. -/
def initState (today sel0 : JDate) (dis : Bool) : CState :=
  let s : CState :=
    { now := 0, selectedDate := sel0, disableAutoScroll := dis,
      isScrolling := false, isUserInteracting := false, hasInitialized := false,
      initTimer := none, recenterTimer := none, autoTimer := none,
      graceTimers := [], log := [] }
  autoEffect today (recenterEffect today (initEffect today s))

/-- The dates passed to the `onDateSelect` callback, in order: the observable
"anchor reset / selection change" side effects of a run. -/
def selects : List Eff → List JDate
  | [] => []
  | Eff.select d :: es => d :: selects es
  | Eff.scroll _ _ :: es => selects es

/-- The number of non-animated scroll commands in a log.  Only the one-shot
initialization centering is ever issued with `animated = false`. -/
def nonanim (l : List Eff) : Nat :=
  l.countP (fun e => match e with | Eff.scroll _ false => true | _ => false)

/-- What a single-shot timer handle looks like after `n` quiet milliseconds
starting at `now`: consumed if it came due, untouched otherwise. -/
def stale (now n : Nat) : Option Nat → Option Nat
  | some T => if T ≤ now + n then none else some T
  | none => none

/-- A concrete anchor ("today") used by the concrete runs below. -/
def anchor0 : JDate := ⟨0, 0⟩

/-- A concrete non-anchor selected date, two days after the anchor
(window index 9). -/
def sel2 : JDate := ⟨2, 0⟩

/-- A clean idle state with a freshly armed auto-return timer: initialized,
no interaction, suppression off, a non-anchor selection, and the 6000 ms
timer armed at virtual time 0. -/
def cleanArmed : CState :=
  { now := 0, selectedDate := sel2, disableAutoScroll := false,
    isScrolling := false, isUserInteracting := false, hasInitialized := true,
    initTimer := none, recenterTimer := none, autoTimer := some 6000,
    graceTimers := [], log := [] }

/-- `cleanArmed` one millisecond before its auto-return timer expires. -/
def preFire : CState := { cleanArmed with now := 5999 }

/-- The one-shot-initialization invariant: before the latch is set no
non-animated centering has ever been emitted, once it is set the 150 ms
timeout can no longer be armed, and in every case at most one non-animated
centering is ever on the log. -/
def InitInv (s : CState) : Prop :=
  (s.hasInitialized = false → nonanim s.log = 0) ∧
  (s.hasInitialized = true → s.initTimer = none) ∧
  nonanim s.log ≤ 1


/-! ## The timeline model: facts -/

/-- The window, written out: `addDays today i` for `i` from `-7` to `7`. -/
theorem buildDates_eq (t : JDate) : buildDates t =
    [addDays t (-7), addDays t (-6), addDays t (-5), addDays t (-4),
     addDays t (-3), addDays t (-2), addDays t (-1), addDays t 0,
     addDays t 1, addDays t 2, addDays t 3, addDays t 4,
     addDays t 5, addDays t 6, addDays t 7] := by rfl

/-- The calendar day stored at index `i` of the window. -/
theorem buildDates_day (t : JDate) (i : Nat) (h : i < 15) :
    ((buildDates t).getD i ⟨0, 0⟩).day = t.day + (i : Int) - 7 := by
  rw [buildDates_eq]
  interval_cases i <;> simp [addDays] <;> omega

/-- `jsFindIndex` never returns anything below `-1`. -/
theorem jsFindIndex_ge_neg_one (p : JDate → Bool) (l : List JDate) :
    -1 ≤ jsFindIndex p l := by
  induction l with
  | nil => simp [jsFindIndex]
  | cons d ds ih =>
    simp only [jsFindIndex]
    split
    · omega
    · split <;> omega

/-- On the window, looking up the date `o` days after the anchor
(`-7 ≤ o ≤ 7`) finds index `o + 7`, whatever either time-of-day is. -/
theorem jsFindIndex_buildDates (t : JDate) (o : Int) (tod : Nat)
    (h1 : -7 ≤ o) (h2 : o ≤ 7) :
    jsFindIndex (fun d => isSameDay d ⟨t.day + o, tod⟩) (buildDates t) = o + 7 := by
  rw [buildDates_eq]
  interval_cases o <;> simp [jsFindIndex, isSameDay, addDays]

/-- Looking up a date whose calendar day lies outside the window returns
`-1`. -/
theorem jsFindIndex_buildDates_notMem (t : JDate) (d : JDate)
    (h : d.day < t.day - 7 ∨ t.day + 7 < d.day) :
    jsFindIndex (fun e => isSameDay e d) (buildDates t) = -1 := by
  rw [buildDates_eq]
  have hs : ∀ c : Int, -7 ≤ c → c ≤ 7 → isSameDay (addDays t c) d = false := by
    intro c hc1 hc2
    simp only [isSameDay, addDays, beq_eq_false_iff_ne, ne_eq]
    omega
  simp [jsFindIndex, hs (-7) (by norm_num) (by norm_num),
    hs (-6) (by norm_num) (by norm_num), hs (-5) (by norm_num) (by norm_num),
    hs (-4) (by norm_num) (by norm_num), hs (-3) (by norm_num) (by norm_num),
    hs (-2) (by norm_num) (by norm_num), hs (-1) (by norm_num) (by norm_num),
    hs 0 (by norm_num) (by norm_num), hs 1 (by norm_num) (by norm_num),
    hs 2 (by norm_num) (by norm_num), hs 3 (by norm_num) (by norm_num),
    hs 4 (by norm_num) (by norm_num), hs 5 (by norm_num) (by norm_num),
    hs 6 (by norm_num) (by norm_num), hs 7 (by norm_num) (by norm_num)]

/-- C6 — The timeline built at construction has exactly `2·7+1 = 15` dates,
strictly increasing by one calendar day from anchor − 7 to anchor + 7, with no
two entries sharing a calendar day, and the anchor itself at index 7. -/
theorem C6_window_shape (t : JDate) :
    (buildDates t).length = 15 ∧
    (∀ i : Nat, i < 15 →
      ((buildDates t).getD i ⟨0, 0⟩).day = t.day + (i : Int) - 7) ∧
    (∀ i : Nat, i + 1 < 15 →
      ((buildDates t).getD (i + 1) ⟨0, 0⟩).day =
        ((buildDates t).getD i ⟨0, 0⟩).day + 1) ∧
    (∀ i j : Nat, i < 15 → j < 15 →
      isSameDay ((buildDates t).getD i ⟨0, 0⟩) ((buildDates t).getD j ⟨0, 0⟩) = true →
      i = j) ∧
    (buildDates t).getD 7 ⟨0, 0⟩ = t := by
  refine ⟨by rfl, buildDates_day t, ?_, ?_, ?_⟩
  · intro i h
    rw [buildDates_day t (i + 1) h, buildDates_day t i (Nat.lt_of_succ_lt h)]
    push_cast
    omega
  · intro i j hi hj hs
    rw [isSameDay, beq_iff_eq, buildDates_day t i hi, buildDates_day t j hj] at hs
    omega
  · rw [buildDates_eq]
    cases t
    simp [addDays]

/-- Witness for `C6_window_shape` at a concrete anchor. -/
theorem C6_window_shape_witness :
    (buildDates ⟨0, 0⟩).length = 15 ∧
    ((buildDates ⟨0, 0⟩).getD 3 ⟨0, 0⟩).day = (0 : Int) + 3 - 7 ∧
    (buildDates ⟨0, 0⟩).getD 7 ⟨0, 0⟩ = (⟨0, 0⟩ : JDate) := by
  have h := C6_window_shape ⟨0, 0⟩
  exact ⟨h.1, h.2.1 3 (by decide), h.2.2.2.2⟩

/-- C7 — A centering request scrolls to `index * (80 + 2·2) = index * 84`
verbatim (the `Math.max` with 0 never bites since the index is nonnegative),
with no screen-width subtraction; a date outside the window issues no scroll
command at all. -/
theorem C7_center_offset (ds : List JDate) (d : JDate) (a : Bool) :
    (∀ i : Int, jsFindIndex (fun e => isSameDay e d) ds = i → 0 ≤ i →
      centerDateInScroll ds d a =
        some ⟨i * (DATE_ITEM_WIDTH + DATE_ITEM_MARGIN * 2), a⟩) ∧
    (jsFindIndex (fun e => isSameDay e d) ds < 0 →
      centerDateInScroll ds d a = none) ∧
    (∀ t : JDate, ds = buildDates t → (d.day < t.day - 7 ∨ t.day + 7 < d.day) →
      centerDateInScroll ds d a = none) := by
  refine ⟨?_, ?_, ?_⟩
  · intro i hfind hpos
    have hne : ¬ ds.length = 0 := by
      intro h0
      rw [List.length_eq_zero] at h0
      subst h0
      simp [jsFindIndex] at hfind
      omega
    rw [centerDateInScroll, if_neg hne]
    simp only [hfind, if_pos hpos]
    have : max 0 (i * itemTotalWidth) = i * itemTotalWidth := by
      have : (0 : Int) ≤ i * itemTotalWidth := by
        have : (0 : Int) ≤ itemTotalWidth := by norm_num [itemTotalWidth,
          DATE_ITEM_WIDTH, DATE_ITEM_MARGIN]
        exact mul_nonneg hpos this
      omega
    rw [this]
    rfl
  · intro hneg
    rw [centerDateInScroll]
    split
    · rfl
    · simp only
      rw [if_neg (by omega)]
  · intro t hds hout
    subst hds
    have hfind := jsFindIndex_buildDates_notMem t d hout
    rw [centerDateInScroll]
    split
    · rfl
    · simp only [hfind]
      norm_num

/-- Witness for `C7_center_offset`: center the date two days after the anchor
(index 9, offset 756) and fail silently two days past the window's edge. -/
theorem C7_center_offset_witness :
    centerDateInScroll (buildDates ⟨0, 0⟩) ⟨2, 5⟩ true = some ⟨756, true⟩ ∧
    centerDateInScroll (buildDates ⟨0, 0⟩) ⟨9, 0⟩ true = none := by
  have h := C7_center_offset (buildDates ⟨0, 0⟩) ⟨2, 5⟩ true
  have h9 := C7_center_offset (buildDates ⟨0, 0⟩) ⟨9, 0⟩ true
  constructor
  · have := h.1 9 (by decide) (by decide)
    simpa [DATE_ITEM_WIDTH, DATE_ITEM_MARGIN] using this
  · exact h9.2.2 ⟨0, 0⟩ rfl (by decide)

/-- C8 — Index lookup inverts construction: the date stored at index `i`
(matched by calendar day, whatever its time-of-day) is found at index `i`,
and a date outside the window reports "not found" (`-1`). -/
theorem C8_indexOf_inverse (t : JDate) :
    (∀ i : Nat, i < 15 → ∀ tod : Nat,
      jsFindIndex
        (fun e => isSameDay e ⟨((buildDates t).getD i ⟨0, 0⟩).day, tod⟩)
        (buildDates t) = i) ∧
    (∀ d : JDate, d.day < t.day - 7 ∨ t.day + 7 < d.day →
      jsFindIndex (fun e => isSameDay e d) (buildDates t) = -1) := by
  constructor
  · intro i hi tod
    rw [buildDates_day t i hi]
    have : t.day + (i : Int) - 7 = t.day + ((i : Int) - 7) := by ring
    rw [this, jsFindIndex_buildDates t ((i : Int) - 7) tod (by omega) (by omega)]
    omega
  · exact fun d h => jsFindIndex_buildDates_notMem t d h

/-- Witness for `C8_indexOf_inverse` at a concrete anchor, index and
time-of-day. -/
theorem C8_indexOf_inverse_witness :
    jsFindIndex
      (fun e => isSameDay e ⟨((buildDates ⟨0, 0⟩).getD 2 ⟨0, 0⟩).day, 99⟩)
      (buildDates ⟨0, 0⟩) = 2 ∧
    jsFindIndex (fun e => isSameDay e ⟨20, 0⟩) (buildDates ⟨0, 0⟩) = -1 := by
  have h := C8_indexOf_inverse ⟨0, 0⟩
  exact ⟨h.1 2 (by decide) 99, h.2 ⟨20, 0⟩ (by decide)⟩
/-! ## Basic lemmas about logs and effect runs -/

theorem selects_append (l1 l2 : List Eff) :
    selects (l1 ++ l2) = selects l1 ++ selects l2 := by
  induction l1 with
  | nil => rfl
  | cons e es ih => cases e <;> simp [selects, ih]

theorem selects_scroll (l : List Eff) (x : Int) (a : Bool) :
    selects (l ++ [Eff.scroll x a]) = selects l := by
  rw [selects_append]
  simp [selects]

theorem nonanim_append (l1 l2 : List Eff) :
    nonanim (l1 ++ l2) = nonanim l1 + nonanim l2 := by
  simp [nonanim, List.countP_append]

theorem nonanim_select (d : JDate) : nonanim [Eff.select d] = 0 := by
  rfl

theorem nonanim_scroll_true (x : Int) : nonanim [Eff.scroll x true] = 0 := by
  rfl

/-- The window is never empty. -/
theorem buildDates_length_pos (t : JDate) : (buildDates t).length > 0 := by
  rw [show (buildDates t).length = 15 from rfl]
  norm_num

/-- `centerDateInScroll` when the date is found at index `i`. -/
theorem centerDateInScroll_found (ds : List JDate) (d : JDate) (a : Bool) (i : Int)
    (hfind : jsFindIndex (fun e => isSameDay e d) ds = i) (hi : 0 ≤ i) :
    centerDateInScroll ds d a = some ⟨i * itemTotalWidth, a⟩ := by
  have hne : ¬ ds.length = 0 := by
    intro h0
    rw [List.length_eq_zero] at h0
    subst h0
    simp [jsFindIndex] at hfind
    omega
  rw [centerDateInScroll, if_neg hne]
  simp only [hfind, if_pos hi]
  have hmax : max 0 (i * itemTotalWidth) = i * itemTotalWidth := by
    have h1 : (0 : Int) ≤ itemTotalWidth := by
      norm_num [itemTotalWidth, DATE_ITEM_WIDTH, DATE_ITEM_MARGIN]
    have := mul_nonneg hi h1
    omega
  rw [hmax]

/-- `centerDateInScroll` when the date is not found. -/
theorem centerDateInScroll_notFound (ds : List JDate) (d : JDate) (a : Bool)
    (hfind : jsFindIndex (fun e => isSameDay e d) ds < 0) :
    centerDateInScroll ds d a = none := by
  rw [centerDateInScroll]
  split
  · rfl
  · simp only
    rw [if_neg (by omega)]

/-- Looking up the anchor itself finds index 7. -/
theorem jsFindIndex_today (t : JDate) :
    jsFindIndex (fun d => isSameDay d t) (buildDates t) = 7 := by
  have h : (⟨t.day + 0, t.tod⟩ : JDate) = t := by cases t; simp
  have := jsFindIndex_buildDates t 0 t.tod (by norm_num) (by norm_num)
  rw [h] at this
  rw [this]
  norm_num

/-- Centering the anchor scrolls to `7 * 84 = 588`, animated. -/
theorem centerDateInScroll_today (t : JDate) :
    centerDateInScroll (buildDates t) t true = some ⟨588, true⟩ := by
  have := centerDateInScroll_found (buildDates t) t true 7 (jsFindIndex_today t)
    (by norm_num)
  rw [this]
  norm_num [itemTotalWidth, DATE_ITEM_WIDTH, DATE_ITEM_MARGIN]

/-- `emitCenter` changes only the log. -/
theorem emitCenter_proj (t d : JDate) (a : Bool) (s : CState) :
    (emitCenter t d a s).now = s.now ∧
    (emitCenter t d a s).selectedDate = s.selectedDate ∧
    (emitCenter t d a s).disableAutoScroll = s.disableAutoScroll ∧
    (emitCenter t d a s).isScrolling = s.isScrolling ∧
    (emitCenter t d a s).isUserInteracting = s.isUserInteracting ∧
    (emitCenter t d a s).hasInitialized = s.hasInitialized ∧
    (emitCenter t d a s).initTimer = s.initTimer ∧
    (emitCenter t d a s).recenterTimer = s.recenterTimer ∧
    (emitCenter t d a s).autoTimer = s.autoTimer ∧
    (emitCenter t d a s).graceTimers = s.graceTimers := by
  unfold emitCenter
  split <;> simp

/-- `emitCenter` appends no `select` entry. -/
theorem selects_emitCenter (t d : JDate) (a : Bool) (s : CState) :
    selects (emitCenter t d a s).log = selects s.log := by
  unfold emitCenter
  split
  · simp [selects_scroll]
  · rfl

/-- An animated `emitCenter` appends no non-animated scroll. -/
theorem nonanim_emitCenter_true (t d : JDate) (s : CState) :
    nonanim (emitCenter t d true s).log = nonanim s.log := by
  unfold emitCenter
  split
  · rename_i c hc
    have : c.animated = true := by
      unfold centerDateInScroll at hc
      split at hc
      · exact absurd hc (by simp)
      · simp only at hc
        split at hc
        · cases hc; rfl
        · exact absurd hc (by simp)
    simp only [nonanim_append, this]
    rw [show nonanim [Eff.scroll c.x true] = 0 from nonanim_scroll_true c.x]
    omega
  · rfl

/-- A non-animated `emitCenter` appends at most one non-animated scroll. -/
theorem nonanim_emitCenter_le (t d : JDate) (a : Bool) (s : CState) :
    nonanim (emitCenter t d a s).log ≤ nonanim s.log + 1 := by
  unfold emitCenter
  split
  · rename_i c hc
    simp only [nonanim_append]
    have : nonanim [Eff.scroll c.x c.animated] ≤ 1 := by
      cases hca : c.animated
      · rw [show nonanim [Eff.scroll c.x false] = 1 from rfl]
      · rw [nonanim_scroll_true]
        omega
    omega
  · omega

/-- The three effect bodies change only their own timer. -/
theorem initEffect_proj (t : JDate) (s : CState) :
    (initEffect t s).now = s.now ∧
    (initEffect t s).selectedDate = s.selectedDate ∧
    (initEffect t s).disableAutoScroll = s.disableAutoScroll ∧
    (initEffect t s).isScrolling = s.isScrolling ∧
    (initEffect t s).isUserInteracting = s.isUserInteracting ∧
    (initEffect t s).hasInitialized = s.hasInitialized ∧
    (initEffect t s).recenterTimer = s.recenterTimer ∧
    (initEffect t s).autoTimer = s.autoTimer ∧
    (initEffect t s).graceTimers = s.graceTimers ∧
    (initEffect t s).log = s.log := by
  unfold initEffect
  split <;> simp

theorem recenterEffect_proj (t : JDate) (s : CState) :
    (recenterEffect t s).now = s.now ∧
    (recenterEffect t s).selectedDate = s.selectedDate ∧
    (recenterEffect t s).disableAutoScroll = s.disableAutoScroll ∧
    (recenterEffect t s).isScrolling = s.isScrolling ∧
    (recenterEffect t s).isUserInteracting = s.isUserInteracting ∧
    (recenterEffect t s).hasInitialized = s.hasInitialized ∧
    (recenterEffect t s).initTimer = s.initTimer ∧
    (recenterEffect t s).autoTimer = s.autoTimer ∧
    (recenterEffect t s).graceTimers = s.graceTimers ∧
    (recenterEffect t s).log = s.log := by
  unfold recenterEffect
  split <;> simp

theorem autoEffect_proj (t : JDate) (s : CState) :
    (autoEffect t s).now = s.now ∧
    (autoEffect t s).selectedDate = s.selectedDate ∧
    (autoEffect t s).disableAutoScroll = s.disableAutoScroll ∧
    (autoEffect t s).isScrolling = s.isScrolling ∧
    (autoEffect t s).isUserInteracting = s.isUserInteracting ∧
    (autoEffect t s).hasInitialized = s.hasInitialized ∧
    (autoEffect t s).initTimer = s.initTimer ∧
    (autoEffect t s).recenterTimer = s.recenterTimer ∧
    (autoEffect t s).graceTimers = s.graceTimers ∧
    (autoEffect t s).log = s.log := by
  unfold autoEffect
  split <;> simp

/-- The three conditional effect re-runs change only the three single
timers. -/
theorem initStep_proj (t : JDate) (old : Deps) (s : CState) :
    (initStep t old s).now = s.now ∧
    (initStep t old s).selectedDate = s.selectedDate ∧
    (initStep t old s).disableAutoScroll = s.disableAutoScroll ∧
    (initStep t old s).isScrolling = s.isScrolling ∧
    (initStep t old s).isUserInteracting = s.isUserInteracting ∧
    (initStep t old s).hasInitialized = s.hasInitialized ∧
    (initStep t old s).recenterTimer = s.recenterTimer ∧
    (initStep t old s).autoTimer = s.autoTimer ∧
    (initStep t old s).graceTimers = s.graceTimers ∧
    (initStep t old s).log = s.log := by
  unfold initStep
  split
  · simp
  · exact ⟨(initEffect_proj t s).1, (initEffect_proj t s).2.1,
      (initEffect_proj t s).2.2.1, (initEffect_proj t s).2.2.2.1,
      (initEffect_proj t s).2.2.2.2.1, (initEffect_proj t s).2.2.2.2.2.1,
      (initEffect_proj t s).2.2.2.2.2.2.1, (initEffect_proj t s).2.2.2.2.2.2.2.1,
      (initEffect_proj t s).2.2.2.2.2.2.2.2.1, (initEffect_proj t s).2.2.2.2.2.2.2.2.2⟩

theorem recenterStep_proj (t : JDate) (old : Deps) (s : CState) :
    (recenterStep t old s).now = s.now ∧
    (recenterStep t old s).selectedDate = s.selectedDate ∧
    (recenterStep t old s).disableAutoScroll = s.disableAutoScroll ∧
    (recenterStep t old s).isScrolling = s.isScrolling ∧
    (recenterStep t old s).isUserInteracting = s.isUserInteracting ∧
    (recenterStep t old s).hasInitialized = s.hasInitialized ∧
    (recenterStep t old s).initTimer = s.initTimer ∧
    (recenterStep t old s).autoTimer = s.autoTimer ∧
    (recenterStep t old s).graceTimers = s.graceTimers ∧
    (recenterStep t old s).log = s.log := by
  unfold recenterStep
  split
  · simp
  · exact ⟨(recenterEffect_proj t s).1, (recenterEffect_proj t s).2.1,
      (recenterEffect_proj t s).2.2.1, (recenterEffect_proj t s).2.2.2.1,
      (recenterEffect_proj t s).2.2.2.2.1, (recenterEffect_proj t s).2.2.2.2.2.1,
      (recenterEffect_proj t s).2.2.2.2.2.2.1,
      (recenterEffect_proj t s).2.2.2.2.2.2.2.1,
      (recenterEffect_proj t s).2.2.2.2.2.2.2.2.1,
      (recenterEffect_proj t s).2.2.2.2.2.2.2.2.2⟩

theorem autoStep_proj (t : JDate) (old : Deps) (s : CState) :
    (autoStep t old s).now = s.now ∧
    (autoStep t old s).selectedDate = s.selectedDate ∧
    (autoStep t old s).disableAutoScroll = s.disableAutoScroll ∧
    (autoStep t old s).isScrolling = s.isScrolling ∧
    (autoStep t old s).isUserInteracting = s.isUserInteracting ∧
    (autoStep t old s).hasInitialized = s.hasInitialized ∧
    (autoStep t old s).initTimer = s.initTimer ∧
    (autoStep t old s).recenterTimer = s.recenterTimer ∧
    (autoStep t old s).graceTimers = s.graceTimers ∧
    (autoStep t old s).log = s.log := by
  unfold autoStep
  split
  · simp
  · exact ⟨(autoEffect_proj t s).1, (autoEffect_proj t s).2.1,
      (autoEffect_proj t s).2.2.1, (autoEffect_proj t s).2.2.2.1,
      (autoEffect_proj t s).2.2.2.2.1, (autoEffect_proj t s).2.2.2.2.2.1,
      (autoEffect_proj t s).2.2.2.2.2.2.1, (autoEffect_proj t s).2.2.2.2.2.2.2.1,
      (autoEffect_proj t s).2.2.2.2.2.2.2.2.1,
      (autoEffect_proj t s).2.2.2.2.2.2.2.2.2⟩

/-- `runEffects` changes only the three single timers. -/
theorem runEffects_proj (t : JDate) (old : Deps) (s : CState) :
    (runEffects t old s).now = s.now ∧
    (runEffects t old s).selectedDate = s.selectedDate ∧
    (runEffects t old s).disableAutoScroll = s.disableAutoScroll ∧
    (runEffects t old s).isScrolling = s.isScrolling ∧
    (runEffects t old s).isUserInteracting = s.isUserInteracting ∧
    (runEffects t old s).hasInitialized = s.hasInitialized ∧
    (runEffects t old s).graceTimers = s.graceTimers ∧
    (runEffects t old s).log = s.log := by
  unfold runEffects
  have h1 := initStep_proj t old s
  have h2 := recenterStep_proj t old (initStep t old s)
  have h3 := autoStep_proj t old (recenterStep t old (initStep t old s))
  refine ⟨?_, ?_, ?_, ?_, ?_, ?_, ?_, ?_⟩
  · rw [h3.1, h2.1, h1.1]
  · rw [h3.2.1, h2.2.1, h1.2.1]
  · rw [h3.2.2.1, h2.2.2.1, h1.2.2.1]
  · rw [h3.2.2.2.1, h2.2.2.2.1, h1.2.2.2.1]
  · rw [h3.2.2.2.2.1, h2.2.2.2.2.1, h1.2.2.2.2.1]
  · rw [h3.2.2.2.2.2.1, h2.2.2.2.2.2.1, h1.2.2.2.2.2.1]
  · rw [h3.2.2.2.2.2.2.2.2.1, h2.2.2.2.2.2.2.2.2.1, h1.2.2.2.2.2.2.2.2.1]
  · rw [h3.2.2.2.2.2.2.2.2.2, h2.2.2.2.2.2.2.2.2.2, h1.2.2.2.2.2.2.2.2.2]

/-! ## Quiet and calm passage of time -/

theorem fireInit_skip (t : JDate) (s : CState)
    (h : ∀ T, s.initTimer = some T → ¬ T ≤ s.now) : fireInit t s = s := by
  unfold fireInit
  cases hI : s.initTimer with
  | none => rfl
  | some T => simp [h T hI]

theorem fireRecenter_skip (t : JDate) (s : CState)
    (h : ∀ T, s.recenterTimer = some T → ¬ T ≤ s.now) : fireRecenter t s = s := by
  unfold fireRecenter
  cases hR : s.recenterTimer with
  | none => rfl
  | some T => simp [h T hR]

theorem fireAuto_skip (t : JDate) (s : CState)
    (h : ∀ T, s.autoTimer = some T → ¬ T ≤ s.now) : fireAuto t s = s := by
  unfold fireAuto
  cases hA : s.autoTimer with
  | none => rfl
  | some T => simp [h T hA]

theorem fireGrace_skip (t : JDate) (s : CState)
    (h : ∀ g ∈ s.graceTimers, ¬ g ≤ s.now) : fireGrace t s = s := by
  unfold fireGrace
  have : s.graceTimers.any (fun g => decide (g ≤ s.now)) = false := by
    rw [List.any_eq_false]
    intro g hg
    simp [h g hg]
  rw [this]
  simp

/-- A tick during which no timer comes due only advances the clock. -/
theorem tick_quiet (t : JDate) (s : CState)
    (hI : ∀ T, s.initTimer = some T → ¬ T ≤ s.now + 1)
    (hR : ∀ T, s.recenterTimer = some T → ¬ T ≤ s.now + 1)
    (hA : ∀ T, s.autoTimer = some T → ¬ T ≤ s.now + 1)
    (hG : ∀ g ∈ s.graceTimers, ¬ g ≤ s.now + 1) :
    tick t s = { s with now := s.now + 1 } := by
  unfold tick
  rw [fireInit_skip t _ hI, fireRecenter_skip t _ hR, fireGrace_skip t _ hG,
    fireAuto_skip t _ hA]

/-- Splitting a quiet stretch. -/
theorem ticks_add (t : JDate) (m n : Nat) (s : CState) :
    ticks t (m + n) s = ticks t n (ticks t m s) := by
  induction m generalizing s with
  | zero => simp [ticks]
  | succ m ih =>
    have h1 : m + 1 + n = (m + n) + 1 := by omega
    rw [h1]
    show ticks t (m + n) (tick t s) = ticks t n (ticks t m (tick t s))
    exact ih (tick t s)

/-- A stretch of `n` milliseconds during which no timer comes due only
advances the clock. -/
theorem ticks_quiet (t : JDate) (n : Nat) (s : CState)
    (hI : ∀ T, s.initTimer = some T → ¬ T ≤ s.now + n)
    (hR : ∀ T, s.recenterTimer = some T → ¬ T ≤ s.now + n)
    (hA : ∀ T, s.autoTimer = some T → ¬ T ≤ s.now + n)
    (hG : ∀ g ∈ s.graceTimers, ¬ g ≤ s.now + n) :
    ticks t n s = { s with now := s.now + n } := by
  induction n generalizing s with
  | zero => simp [ticks]
  | succ n ih =>
    show ticks t n (tick t s) = _
    rw [tick_quiet t s (fun T hT => fun hle => hI T hT (by omega))
      (fun T hT => fun hle => hR T hT (by omega))
      (fun T hT => fun hle => hA T hT (by omega))
      (fun g hg => fun hle => hG g hg (by omega))]
    rw [ih { s with now := s.now + 1 }
      (by intro T hT; dsimp at hT; intro hle; dsimp at hle; exact hI T hT (by omega))
      (by intro T hT; dsimp at hT; intro hle; dsimp at hle; exact hR T hT (by omega))
      (by intro T hT; dsimp at hT; intro hle; dsimp at hle; exact hA T hT (by omega))
      (by intro g hg; dsimp at hg; intro hle; dsimp at hle; exact hG g hg (by omega))]
    simp
    omega

theorem stale_congr (a n a' n' : Nat) (x : Option Nat) (h : a + n = a' + n') :
    stale a n x = stale a' n' x := by
  cases x <;> simp [stale, h]

/-- `emitCenter` only appends to the log: no `select` entry, no non-animated
scroll when the request is animated, at most one entry. -/
theorem emitCenter_eq (t d : JDate) (a : Bool) (s : CState) :
    ∃ l, selects l = [] ∧ (a = true → nonanim l = 0) ∧ nonanim l ≤ 1 ∧
      emitCenter t d a s = { s with log := s.log ++ l } := by
  unfold emitCenter
  split
  · rename_i c hc
    have hca : c.animated = a := by
      unfold centerDateInScroll at hc
      split at hc
      · exact absurd hc (by simp)
      · simp only at hc
        split at hc
        · cases hc; rfl
        · exact absurd hc (by simp)
    refine ⟨[Eff.scroll c.x c.animated], rfl, ?_, ?_, rfl⟩
    · intro ha
      rw [hca, ha]
      exact nonanim_scroll_true c.x
    · cases hb : c.animated
      · rw [show nonanim [Eff.scroll c.x false] = 1 from rfl]
      · rw [nonanim_scroll_true]
        omega
  · exact ⟨[], rfl, fun _ => rfl, by decide, by simp⟩

theorem initStep_eq (t : JDate) (old : Deps) (s : CState) :
    ∃ a, initStep t old s = { s with initTimer := a } := by
  unfold initStep initEffect
  split
  · exact ⟨s.initTimer, by simp⟩
  · split
    · exact ⟨some (s.now + 150), rfl⟩
    · exact ⟨none, rfl⟩

theorem recenterStep_eq (t : JDate) (old : Deps) (s : CState) :
    ∃ a, recenterStep t old s = { s with recenterTimer := a } := by
  unfold recenterStep recenterEffect
  split
  · exact ⟨s.recenterTimer, by simp⟩
  · split
    · exact ⟨some (s.now + 50), rfl⟩
    · exact ⟨none, rfl⟩

theorem autoStep_eq (t : JDate) (old : Deps) (s : CState) :
    ∃ a, autoStep t old s = { s with autoTimer := a } := by
  unfold autoStep autoEffect
  split
  · exact ⟨s.autoTimer, by simp⟩
  · split
    · exact ⟨none, rfl⟩
    · exact ⟨some (s.now + 6000), rfl⟩

/-- An effect re-run only rewrites the three single timer handles. -/
theorem runEffects_eq (t : JDate) (old : Deps) (s : CState) :
    ∃ a b c, runEffects t old s =
      { s with initTimer := a, recenterTimer := b, autoTimer := c } := by
  unfold runEffects
  obtain ⟨a, ha⟩ := initStep_eq t old s
  rw [ha]
  obtain ⟨b, hb⟩ := recenterStep_eq t old { s with initTimer := a }
  rw [hb]
  obtain ⟨c, hc⟩ := autoStep_eq t old { s with initTimer := a, recenterTimer := b }
  rw [hc]
  exact ⟨a, b, c, rfl⟩

/-- What the 150 ms initialization timeout does to a state, in record shape:
it rewrites `initTimer` like any consumed one-shot handle, possibly latches
`hasInitialized`, and appends at most one non-animated scroll to the log. -/
theorem fireInit_char (t : JDate) (s : CState) :
    ∃ l h', selects l = [] ∧ nonanim l ≤ 1 ∧
      (s.hasInitialized = true → h' = s.hasInitialized) ∧
      fireInit t s = { s with initTimer := stale s.now 0 s.initTimer,
                              hasInitialized := h', log := s.log ++ l } := by
  obtain ⟨now, sel, dis, scr, intg, hin, it, rt, au, gt, lg⟩ := s
  cases it with
  | none =>
    refine ⟨[], hin, rfl, by decide, fun _ => rfl, ?_⟩
    simp [fireInit, stale]
  | some T =>
    by_cases hdue : T ≤ now
    · obtain ⟨l, hsel, _, hna, heq⟩ := emitCenter_eq t sel false
        ⟨now, sel, dis, scr, intg, hin, none, rt, au, gt, lg⟩
      refine ⟨l, true, hsel, hna, fun h => h.symm, ?_⟩
      simp only [fireInit, if_pos hdue, if_pos (buildDates_length_pos t)]
      rw [heq]
      simp [stale, hdue]
    · refine ⟨[], hin, rfl, by decide, fun _ => rfl, ?_⟩
      simp [fireInit, stale, hdue]

/-- What the 50 ms re-centering timeout does to a state, in record shape: it
rewrites `recenterTimer` like any consumed one-shot handle and appends at most
one animated scroll. -/
theorem fireRecenter_char (t : JDate) (s : CState) :
    ∃ l, selects l = [] ∧ nonanim l = 0 ∧
      fireRecenter t s = { s with recenterTimer := stale s.now 0 s.recenterTimer,
                                  log := s.log ++ l } := by
  obtain ⟨now, sel, dis, scr, intg, hin, it, rt, au, gt, lg⟩ := s
  cases rt with
  | none =>
    refine ⟨[], rfl, rfl, ?_⟩
    simp [fireRecenter, stale]
  | some T =>
    by_cases hdue : T ≤ now
    · by_cases hflags : (!intg && !scr) = true
      · obtain ⟨l, hsel, hna0, _, heq⟩ := emitCenter_eq t sel true
          ⟨now, sel, dis, scr, intg, hin, it, none, au, gt, lg⟩
        refine ⟨l, hsel, hna0 rfl, ?_⟩
        simp only [fireRecenter, if_pos hdue]
        rw [if_pos hflags, heq]
        simp [stale, hdue]
      · refine ⟨[], rfl, rfl, ?_⟩
        simp only [fireRecenter, if_pos hdue]
        rw [if_neg hflags]
        simp [stale, hdue]
    · refine ⟨[], rfl, rfl, ?_⟩
      simp [fireRecenter, stale, hdue]

theorem stale_comp (a n m : Nat) (x : Option Nat) :
    stale (a + n) m (stale a n x) = stale a (n + m) x := by
  cases x with
  | none => simp [stale]
  | some T =>
    by_cases h1 : T ≤ a + n
    · have h2 : T ≤ a + (n + m) := by omega
      simp [stale, h1, h2]
    · by_cases h2 : T ≤ a + n + m
      · have h3 : T ≤ a + (n + m) := by omega
        simp [stale, h1, h2, h3]
      · have h3 : ¬ T ≤ a + (n + m) := by omega
        simp [stale, h1, h2, h3]

/-- One millisecond during which no grace and no auto-return timeout comes due
cannot change the selection, the emitted `onDateSelect` calls, the interaction
flags, or the auto-return timer — even though the initialization or
re-centering timeout may fire and emit a scroll. -/
theorem tick_calm (t : JDate) (s : CState)
    (hG : ∀ g ∈ s.graceTimers, ¬ g ≤ s.now + 1)
    (hA : ∀ T, s.autoTimer = some T → ¬ T ≤ s.now + 1) :
    (tick t s).now = s.now + 1 ∧
    (tick t s).selectedDate = s.selectedDate ∧
    selects (tick t s).log = selects s.log ∧
    (tick t s).autoTimer = s.autoTimer ∧
    (tick t s).graceTimers = s.graceTimers ∧
    (tick t s).isUserInteracting = s.isUserInteracting ∧
    (tick t s).isScrolling = s.isScrolling ∧
    (tick t s).disableAutoScroll = s.disableAutoScroll ∧
    (tick t s).initTimer = stale s.now 1 s.initTimer ∧
    (tick t s).recenterTimer = stale s.now 1 s.recenterTimer ∧
    (s.hasInitialized = true → (tick t s).hasInitialized = true) := by
  unfold tick
  obtain ⟨l1, h1, hsel1, _, hmono1, heq1⟩ := fireInit_char t { s with now := s.now + 1 }
  rw [heq1]
  obtain ⟨l2, hsel2, _, heq2⟩ := fireRecenter_char t _
  rw [heq2]
  rw [fireGrace_skip t _ (by intro g hg; dsimp only at hg ⊢; exact hG g hg)]
  rw [fireAuto_skip t _ (by intro T hT; dsimp only at hT ⊢; exact hA T hT)]
  refine ⟨rfl, rfl, ?_, rfl, rfl, rfl, rfl, rfl, ?_, ?_, ?_⟩
  · dsimp only
    rw [List.append_assoc, selects_append, selects_append, hsel1, hsel2]
    simp
  · dsimp only
    exact stale_congr _ _ _ _ _ (by omega)
  · dsimp only
    exact stale_congr _ _ _ _ _ (by omega)
  · intro h
    dsimp only
    exact hmono1 h ▸ (hmono1 h).symm ▸ h

/-- `n` milliseconds during which no grace and no auto-return timeout comes
due cannot change the selection, the emitted `onDateSelect` calls, the
interaction flags, or the auto-return timer; the two one-shot handles are
consumed exactly when their expiry passes. -/
theorem ticks_calm (t : JDate) (n : Nat) (s : CState)
    (hG : ∀ g ∈ s.graceTimers, ¬ g ≤ s.now + n)
    (hA : ∀ T, s.autoTimer = some T → ¬ T ≤ s.now + n)
    (hI0 : ∀ T, s.initTimer = some T → s.now < T)
    (hR0 : ∀ T, s.recenterTimer = some T → s.now < T) :
    (ticks t n s).now = s.now + n ∧
    (ticks t n s).selectedDate = s.selectedDate ∧
    selects (ticks t n s).log = selects s.log ∧
    (ticks t n s).autoTimer = s.autoTimer ∧
    (ticks t n s).graceTimers = s.graceTimers ∧
    (ticks t n s).isUserInteracting = s.isUserInteracting ∧
    (ticks t n s).isScrolling = s.isScrolling ∧
    (ticks t n s).disableAutoScroll = s.disableAutoScroll ∧
    (ticks t n s).initTimer = stale s.now n s.initTimer ∧
    (ticks t n s).recenterTimer = stale s.now n s.recenterTimer ∧
    (s.hasInitialized = true → (ticks t n s).hasInitialized = true) := by
  induction n generalizing s with
  | zero =>
    refine ⟨by simp [ticks], rfl, rfl, rfl, rfl, rfl, rfl, rfl, ?_, ?_, fun h => h⟩
    · cases hx : s.initTimer with
      | none => simp [ticks, stale, hx]
      | some T =>
        have := hI0 T hx
        simp only [ticks, stale, hx]
        rw [if_neg (by omega)]
    · cases hx : s.recenterTimer with
      | none => simp [ticks, stale, hx]
      | some T =>
        have := hR0 T hx
        simp only [ticks, stale, hx]
        rw [if_neg (by omega)]
  | succ n ih =>
    show _ ∧ _
    have h1 := tick_calm t s (fun g hg hle => hG g hg (by omega))
      (fun T hT hle => hA T hT (by omega))
    have h2 := ih (tick t s)
      (by rw [h1.2.2.2.2.1, h1.1]; intro g hg hle; exact hG g hg (by omega))
      (by rw [h1.2.2.2.1, h1.1]; intro T hT hle; exact hA T hT (by omega))
      (by rw [h1.2.2.2.2.2.2.2.2.1, h1.1]
          intro T hT
          cases hx : s.initTimer with
          | none => rw [hx] at hT; simp [stale] at hT
          | some U =>
            rw [hx] at hT
            simp only [stale] at hT
            by_cases hd : U ≤ s.now + 1
            · rw [if_pos hd] at hT; exact absurd hT (by simp)
            · rw [if_neg hd] at hT
              cases hT
              omega)
      (by rw [h1.2.2.2.2.2.2.2.2.2.1, h1.1]
          intro T hT
          cases hx : s.recenterTimer with
          | none => rw [hx] at hT; simp [stale] at hT
          | some U =>
            rw [hx] at hT
            simp only [stale] at hT
            by_cases hd : U ≤ s.now + 1
            · rw [if_pos hd] at hT; exact absurd hT (by simp)
            · rw [if_neg hd] at hT
              cases hT
              omega)
    rw [show ticks t (n + 1) s = ticks t n (tick t s) from rfl]
    refine ⟨?_, ?_, ?_, ?_, ?_, ?_, ?_, ?_, ?_, ?_, ?_⟩
    · rw [h2.1, h1.1]; omega
    · rw [h2.2.1, h1.2.1]
    · rw [h2.2.2.1, h1.2.2.1]
    · rw [h2.2.2.2.1, h1.2.2.2.1]
    · rw [h2.2.2.2.2.1, h1.2.2.2.2.1]
    · rw [h2.2.2.2.2.2.1, h1.2.2.2.2.2.1]
    · rw [h2.2.2.2.2.2.2.1, h1.2.2.2.2.2.2.1]
    · rw [h2.2.2.2.2.2.2.2.1, h1.2.2.2.2.2.2.2.1]
    · rw [h2.2.2.2.2.2.2.2.2.1, h1.2.2.2.2.2.2.2.2.1, h1.1, stale_comp]
      exact stale_congr _ _ _ _ _ (by omega)
    · rw [h2.2.2.2.2.2.2.2.2.2.1, h1.2.2.2.2.2.2.2.2.2.1, h1.1, stale_comp]
      exact stale_congr _ _ _ _ _ (by omega)
    · intro h
      exact h2.2.2.2.2.2.2.2.2.2.2 (h1.2.2.2.2.2.2.2.2.2.2 h)

/-- Firing grace timeouts rewrites only the interaction flag, the grace list
and (through the effect re-run) the three single timers. -/
theorem fireGrace_char (t : JDate) (s : CState) :
    ∃ u gt a b c, fireGrace t s =
      { s with isUserInteracting := u, graceTimers := gt,
               initTimer := a, recenterTimer := b, autoTimer := c } := by
  unfold fireGrace
  split
  · obtain ⟨a, b, c, habc⟩ := runEffects_eq t (depsOf s)
      { s with isUserInteracting := false,
               graceTimers := s.graceTimers.filter (fun g => decide (s.now < g)) }
    rw [habc]
    exact ⟨false, _, a, b, c, rfl⟩
  · exact ⟨s.isUserInteracting, s.graceTimers, s.initTimer, s.recenterTimer,
      s.autoTimer, by simp⟩

theorem autoScrollGuard_scrolling (d : Bool) (sd t : JDate) (iu : Bool) :
    autoScrollGuard d sd t iu true = true := by
  simp [autoScrollGuard]

theorem autoScrollGuard_disabled (sd t : JDate) (iu sc : Bool) :
    autoScrollGuard true sd t iu sc = true := by
  simp [autoScrollGuard]

/-- The auto-return timeout body re-checks its guards at execution time: when
any guard holds, the due timeout is consumed without any side effect. -/
theorem fireAuto_blocked (t : JDate) (s : CState)
    (h : autoScrollGuard s.disableAutoScroll s.selectedDate t
      s.isUserInteracting s.isScrolling = true) :
    fireAuto t s = s ∨ fireAuto t s = { s with autoTimer := none } := by
  unfold fireAuto
  cases hA : s.autoTimer with
  | none => exact Or.inl rfl
  | some T =>
    dsimp only
    by_cases hdue : T ≤ s.now
    · right
      rw [if_pos hdue]
      rw [if_pos h]
    · left
      rw [if_neg hdue]

/-- When any auto-return guard holds at execution time, a due auto-return
timeout is consumed with no observable side effect at all. -/
theorem fireAuto_frozen (t : JDate) (s : CState)
    (h : s.isScrolling = true ∨ s.disableAutoScroll = true) :
    (fireAuto t s).isScrolling = s.isScrolling ∧
    (fireAuto t s).disableAutoScroll = s.disableAutoScroll ∧
    (fireAuto t s).selectedDate = s.selectedDate ∧
    (fireAuto t s).log = s.log := by
  have hguard : autoScrollGuard s.disableAutoScroll s.selectedDate t
      s.isUserInteracting s.isScrolling = true := by
    rcases h with h | h
    · rw [h]; exact autoScrollGuard_scrolling _ _ _ _
    · rw [h]; exact autoScrollGuard_disabled _ _ _ _
  rcases fireAuto_blocked t s hguard with h4 | h4 <;> rw [h4] <;>
    exact ⟨rfl, rfl, rfl, rfl⟩

/-- While the scroll surface is dragging, or while auto-return is suppressed,
one millisecond of quiet can never change the selection or invoke the
callback, whatever timers fire. -/
theorem tick_blocked (t : JDate) (s : CState)
    (h : s.isScrolling = true ∨ s.disableAutoScroll = true) :
    (tick t s).isScrolling = s.isScrolling ∧
    (tick t s).disableAutoScroll = s.disableAutoScroll ∧
    (tick t s).selectedDate = s.selectedDate ∧
    selects (tick t s).log = selects s.log := by
  obtain ⟨l1, h1, hsel1, _, _, heq1⟩ := fireInit_char t { s with now := s.now + 1 }
  obtain ⟨l2, hsel2, _, heq2⟩ :=
    fireRecenter_char t (fireInit t { s with now := s.now + 1 })
  obtain ⟨u, gt, a, b, c, heq3⟩ :=
    fireGrace_char t (fireRecenter t (fireInit t { s with now := s.now + 1 }))
  have hscr : (fireGrace t (fireRecenter t (fireInit t
      { s with now := s.now + 1 }))).isScrolling = s.isScrolling := by
    rw [heq3]
    show (fireRecenter t (fireInit t { s with now := s.now + 1 })).isScrolling = _
    rw [heq2]
    show (fireInit t { s with now := s.now + 1 }).isScrolling = _
    rw [heq1]
  have hdis : (fireGrace t (fireRecenter t (fireInit t
      { s with now := s.now + 1 }))).disableAutoScroll = s.disableAutoScroll := by
    rw [heq3]
    show (fireRecenter t (fireInit t { s with now := s.now + 1 })).disableAutoScroll = _
    rw [heq2]
    show (fireInit t { s with now := s.now + 1 }).disableAutoScroll = _
    rw [heq1]
  have hsel : (fireGrace t (fireRecenter t (fireInit t
      { s with now := s.now + 1 }))).selectedDate = s.selectedDate := by
    rw [heq3]
    show (fireRecenter t (fireInit t { s with now := s.now + 1 })).selectedDate = _
    rw [heq2]
    show (fireInit t { s with now := s.now + 1 }).selectedDate = _
    rw [heq1]
  have hlog : selects (fireGrace t (fireRecenter t (fireInit t
      { s with now := s.now + 1 }))).log = selects s.log := by
    rw [heq3]
    show selects (fireRecenter t (fireInit t { s with now := s.now + 1 })).log = _
    rw [heq2]
    show selects ((fireInit t { s with now := s.now + 1 }).log ++ l2) = _
    rw [heq1]
    show selects ((s.log ++ l1) ++ l2) = _
    rw [selects_append, selects_append, hsel1, hsel2]
    simp
  have h4 := fireAuto_frozen t
    (fireGrace t (fireRecenter t (fireInit t { s with now := s.now + 1 })))
    (by rcases h with h | h
        · exact Or.inl (hscr.trans h)
        · exact Or.inr (hdis.trans h))
  unfold tick
  refine ⟨h4.1.trans hscr, h4.2.1.trans hdis, h4.2.2.1.trans hsel, ?_⟩
  rw [h4.2.2.2]
  exact hlog

/-- `ticks_blocked`: the scrolling / suppression freeze over any quiet
stretch. -/
theorem ticks_blocked (t : JDate) (n : Nat) (s : CState)
    (h : s.isScrolling = true ∨ s.disableAutoScroll = true) :
    (ticks t n s).isScrolling = s.isScrolling ∧
    (ticks t n s).disableAutoScroll = s.disableAutoScroll ∧
    (ticks t n s).selectedDate = s.selectedDate ∧
    selects (ticks t n s).log = selects s.log := by
  induction n generalizing s with
  | zero => exact ⟨rfl, rfl, rfl, rfl⟩
  | succ n ih =>
    have h1 := tick_blocked t s h
    have h2 := ih (tick t s)
      (by rcases h with h | h
          · exact Or.inl (h1.1.trans h)
          · exact Or.inr (h1.2.1.trans h))
    show (ticks t n (tick t s)).isScrolling = _ ∧ _
    exact ⟨h2.1.trans h1.1, h2.2.1.trans h1.2.1, h2.2.2.1.trans h1.2.2.1,
      h2.2.2.2.trans h1.2.2.2⟩

/-- The instant the auto-return timeout comes due on a clean idle state: the
window centers the anchor (index 7, offset 588, animated), `onDateSelect` is
invoked with the anchor — in that order — the host sets `selectedDate`, and
the effect re-run arms the 50 ms re-centering delay but no new auto-return
timer (the guard `isSameDay(selectedDate, today)` now holds). -/
theorem tick_autofire (t : JDate) (s : CState)
    (hI : s.initTimer = none) (hR : s.recenterTimer = none) (hG : s.graceTimers = [])
    (hA : s.autoTimer = some (s.now + 1))
    (hdis : s.disableAutoScroll = false) (hsd : isSameDay s.selectedDate t = false)
    (hiu : s.isUserInteracting = false) (hsc : s.isScrolling = false)
    (hhi : s.hasInitialized = true) :
    tick t s = { s with now := s.now + 1, selectedDate := t, autoTimer := none,
                        recenterTimer := some (s.now + 1 + 50),
                        log := s.log ++ [Eff.scroll 588 true, Eff.select t] } := by
  have hne : ¬ s.selectedDate = t := by
    intro he
    rw [he] at hsd
    simp [isSameDay] at hsd
  obtain ⟨now, sel, dis, scr, intg, hin, it, rt, au, gt, lg⟩ := s
  dsimp only at hI hR hG hA hdis hsd hiu hsc hhi hne ⊢
  subst hI
  subst hR
  subst hG
  subst hA
  subst hdis
  subst hiu
  subst hsc
  subst hhi
  have hday : ¬ sel.day = t.day := by
    simp only [isSameDay, beq_eq_false_iff_ne, ne_eq] at hsd
    exact hsd
  simp [tick, fireInit, fireRecenter, fireGrace, fireAuto, runEffects, initStep,
    recenterStep, autoStep, initEffect, recenterEffect, autoEffect,
    autoScrollGuard, depsOf, emitCenter, centerDateInScroll_today, hsd, hne,
    hday, isSameDay, buildDates_length_pos]

/-- The instant the post-tap (or post-drag) grace timeout releases the
interaction flag on an otherwise idle, initialized, non-anchor state: the flag
drops and the effect re-run immediately arms both the 50 ms re-centering delay
and a fresh 6000 ms auto-return timer — no drag-end or momentum-end event is
needed. -/
theorem tick_gracefire (t : JDate) (s : CState)
    (hI : s.initTimer = none) (hR : s.recenterTimer = none)
    (hA : s.autoTimer = none) (hG : s.graceTimers = [s.now + 1])
    (hiu : s.isUserInteracting = true) (hdis : s.disableAutoScroll = false)
    (hsc : s.isScrolling = false) (hhi : s.hasInitialized = true)
    (hsd : isSameDay s.selectedDate t = false) :
    tick t s = { s with now := s.now + 1, isUserInteracting := false,
                        graceTimers := [],
                        recenterTimer := some (s.now + 1 + 50),
                        autoTimer := some (s.now + 1 + 6000) } := by
  obtain ⟨now, sel, dis, scr, intg, hin, it, rt, au, gt, lg⟩ := s
  dsimp only at hI hR hA hG hiu hdis hsc hhi hsd ⊢
  subst hI
  subst hR
  subst hA
  subst hG
  subst hiu
  subst hdis
  subst hsc
  subst hhi
  simp [tick, fireInit, fireRecenter, fireGrace, fireAuto, runEffects, initStep,
    recenterStep, autoStep, initEffect, recenterEffect, autoEffect,
    autoScrollGuard, depsOf, hsd, buildDates_length_pos]

/-- The instant the 150 ms initialization timeout comes due on a quiet mounted
state with the selected date at window index `i`: one non-animated centering
on the selected date is emitted and the `hasInitialized` latch is set — with
no effect re-run, since only refs changed. -/
theorem tick_initfire (t : JDate) (s : CState) (i : Int)
    (hI : s.initTimer = some (s.now + 1)) (hR : s.recenterTimer = none)
    (hG : s.graceTimers = [])
    (hA : ∀ T, s.autoTimer = some T → ¬ T ≤ s.now + 1)
    (hfind : jsFindIndex (fun e => isSameDay e s.selectedDate) (buildDates t) = i)
    (hpos : 0 ≤ i) :
    tick t s = { s with now := s.now + 1, initTimer := none,
                        hasInitialized := true,
                        log := s.log ++ [Eff.scroll (i * itemTotalWidth) false] } := by
  have hcenter := centerDateInScroll_found (buildDates t) s.selectedDate false i
    hfind hpos
  obtain ⟨now, sel, dis, scr, intg, hin, it, rt, au, gt, lg⟩ := s
  dsimp only at hI hR hG hA hfind hcenter ⊢
  subst hI
  subst hR
  subst hG
  cases au with
  | none =>
    simp [tick, fireInit, fireRecenter, fireGrace, fireAuto, emitCenter,
      hcenter, buildDates_length_pos]
  | some T =>
    have hTnd := hA T rfl
    simp [tick, fireInit, fireRecenter, fireGrace, fireAuto, emitCenter,
      hcenter, hTnd, buildDates_length_pos]

theorem autoScrollGuard_interacting (d : Bool) (sd t : JDate) (sc : Bool) :
    autoScrollGuard d sd t true sc = true := by
  simp [autoScrollGuard]

/-- `emitCenter` when the date sits at window index `i`. -/
theorem emitCenter_found (t d : JDate) (a : Bool) (s : CState) (i : Int)
    (hfind : jsFindIndex (fun e => isSameDay e d) (buildDates t) = i)
    (hpos : 0 ≤ i) :
    emitCenter t d a s =
      { s with log := s.log ++ [Eff.scroll (i * itemTotalWidth) a] } := by
  unfold emitCenter
  rw [centerDateInScroll_found (buildDates t) d a i hfind hpos]

/-- While the user is interacting, an effect re-run can never arm the
auto-return timer. -/
theorem runEffects_auto_none (t : JDate) (old : Deps) (s : CState)
    (h0 : s.autoTimer = none) (h1 : s.isUserInteracting = true) :
    (runEffects t old s).autoTimer = none := by
  unfold runEffects autoStep
  have hauto : (recenterStep t old (initStep t old s)).autoTimer = none := by
    rw [(recenterStep_proj t old _).2.2.2.2.2.2.2.1,
      (initStep_proj t old s).2.2.2.2.2.2.2.1]
    exact h0
  have hiu : (recenterStep t old (initStep t old s)).isUserInteracting = true := by
    rw [(recenterStep_proj t old _).2.2.2.2.1, (initStep_proj t old s).2.2.2.2.1]
    exact h1
  split
  · exact hauto
  · unfold autoEffect
    rw [if_pos (by rw [hiu]; exact autoScrollGuard_interacting _ _ _ _)]

/-- A second external date change on a clean idle state recenters after 50 ms
and re-arms a fresh 6000 ms auto-return timer, the unconditional cancellation
having dropped any previously armed one. -/
theorem step_extChange (t : JDate) (s : CState) (d : JDate)
    (hI : s.initTimer = none)
    (hiu : s.isUserInteracting = false) (hsc : s.isScrolling = false)
    (hhi : s.hasInitialized = true)
    (hne : ¬ d = s.selectedDate) (hsd : isSameDay d t = false) :
    step t s (Ev.extChange d false) =
      { s with selectedDate := d, disableAutoScroll := false,
               initTimer := none, recenterTimer := some (s.now + 50),
               autoTimer := some (s.now + 6000) } := by
  have hday : ¬ d.day = t.day := by
    simp only [isSameDay, beq_eq_false_iff_ne, ne_eq] at hsd
    exact hsd
  obtain ⟨now, sel, dis, scr, intg, hin, it, rt, au, gt, lg⟩ := s
  dsimp only at hI hiu hsc hhi hne hsd ⊢
  subst hI
  subst hiu
  subst hsc
  subst hhi
  have hne' : ¬ sel = d := fun h => hne h.symm
  simp [step, runEffects, initStep, recenterStep, autoStep, initEffect,
    recenterEffect, autoEffect, autoScrollGuard, depsOf, hne, hne', hsd, hday,
    isSameDay, buildDates_length_pos]

/-- What a tap on the date at window index `i` does, from any state:
`onDateSelect(d)` is invoked (the host sets `selectedDate := d`), an animated
centering command for index `i` follows within the same event turn, the
pending auto-return timer is disarmed and stays disarmed, the interaction
flag rises and a 400 ms release timeout is queued — while `isScrolling`, the
clock and the `hasInitialized` latch are untouched. -/
theorem step_tap_proj (t : JDate) (s : CState) (d : JDate) (i : Int)
    (hfind : jsFindIndex (fun e => isSameDay e d) (buildDates t) = i)
    (hpos : 0 ≤ i) :
    (step t s (Ev.tap d)).selectedDate = d ∧
    (step t s (Ev.tap d)).log =
      s.log ++ [Eff.select d, Eff.scroll (i * itemTotalWidth) true] ∧
    (step t s (Ev.tap d)).autoTimer = none ∧
    (step t s (Ev.tap d)).isUserInteracting = true ∧
    (step t s (Ev.tap d)).isScrolling = s.isScrolling ∧
    (step t s (Ev.tap d)).graceTimers = s.graceTimers ++ [s.now + 400] ∧
    (step t s (Ev.tap d)).now = s.now ∧
    (step t s (Ev.tap d)).hasInitialized = s.hasInitialized ∧
    (step t s (Ev.tap d)).disableAutoScroll = s.disableAutoScroll := by
  have hstep : step t s (Ev.tap d) = runEffects t (depsOf s)
      { s with isUserInteracting := true, autoTimer := none,
               log := (s.log ++ [Eff.select d]) ++ [Eff.scroll (i * itemTotalWidth) true],
               selectedDate := d, graceTimers := s.graceTimers ++ [s.now + 400] } := by
    unfold step
    dsimp only
    rw [emitCenter_found t d true _ i hfind hpos]
  rw [hstep]
  have hp := runEffects_proj t (depsOf s)
    { s with isUserInteracting := true, autoTimer := none,
             log := (s.log ++ [Eff.select d]) ++ [Eff.scroll (i * itemTotalWidth) true],
             selectedDate := d, graceTimers := s.graceTimers ++ [s.now + 400] }
  have hauto := runEffects_auto_none t (depsOf s)
    { s with isUserInteracting := true, autoTimer := none,
             log := (s.log ++ [Eff.select d]) ++ [Eff.scroll (i * itemTotalWidth) true],
             selectedDate := d, graceTimers := s.graceTimers ++ [s.now + 400] }
    rfl rfl
  refine ⟨hp.2.1, ?_, hauto, hp.2.2.2.2.1, hp.2.2.2.1, hp.2.2.2.2.2.2.1, hp.1,
    hp.2.2.2.2.2.1, hp.2.2.1⟩
  rw [hp.2.2.2.2.2.2.2]
  simp

/-- `fireAuto` never touches the scroll phase, the suppression prop or the
initialization latch. -/
theorem fireAuto_projs (t : JDate) (s : CState) :
    (fireAuto t s).isScrolling = s.isScrolling ∧
    (fireAuto t s).disableAutoScroll = s.disableAutoScroll ∧
    (fireAuto t s).hasInitialized = s.hasInitialized := by
  unfold fireAuto
  cases hA : s.autoTimer with
  | none => exact ⟨rfl, rfl, rfl⟩
  | some T =>
    dsimp only
    by_cases hdue : T ≤ s.now
    · rw [if_pos hdue]
      split
      · exact ⟨rfl, rfl, rfl⟩
      · obtain ⟨l, _, _, _, heq⟩ := emitCenter_eq t t true { s with autoTimer := none }
        rw [heq]
        exact ⟨(runEffects_proj _ _ _).2.2.2.1, (runEffects_proj _ _ _).2.2.1,
          (runEffects_proj _ _ _).2.2.2.2.2.1⟩
    · rw [if_neg hdue]
      exact ⟨rfl, rfl, rfl⟩

/-- A millisecond of quiet never changes the scroll phase: `isScrolling` is
written only by the drag handlers. -/
theorem tick_isScrolling (t : JDate) (s : CState) :
    (tick t s).isScrolling = s.isScrolling := by
  unfold tick
  obtain ⟨l1, h1, _, _, _, heq1⟩ := fireInit_char t { s with now := s.now + 1 }
  obtain ⟨l2, _, _, heq2⟩ := fireRecenter_char t (fireInit t { s with now := s.now + 1 })
  obtain ⟨u, gt, a, b, c, heq3⟩ :=
    fireGrace_char t (fireRecenter t (fireInit t { s with now := s.now + 1 }))
  rw [(fireAuto_projs t _).1, heq3]
  show (fireRecenter t (fireInit t { s with now := s.now + 1 })).isScrolling = _
  rw [heq2]
  show (fireInit t { s with now := s.now + 1 }).isScrolling = _
  rw [heq1]

/-- The latch survives a millisecond of quiet. -/
theorem tick_hasInit_mono (t : JDate) (s : CState)
    (h : s.hasInitialized = true) : (tick t s).hasInitialized = true := by
  unfold tick
  obtain ⟨l1, h1, _, _, hmono1, heq1⟩ := fireInit_char t { s with now := s.now + 1 }
  obtain ⟨l2, _, _, heq2⟩ := fireRecenter_char t (fireInit t { s with now := s.now + 1 })
  obtain ⟨u, gt, a, b, c, heq3⟩ :=
    fireGrace_char t (fireRecenter t (fireInit t { s with now := s.now + 1 }))
  rw [(fireAuto_projs t _).2.2, heq3]
  show (fireRecenter t (fireInit t { s with now := s.now + 1 })).hasInitialized = _
  rw [heq2]
  show (fireInit t { s with now := s.now + 1 }).hasInitialized = _
  rw [heq1]
  show h1 = true
  rw [hmono1 h]
  exact h

/-- Which events write the scroll phase: drag begin raises it, drag end and
momentum end clear it, taps and external date changes leave it alone. -/
theorem step_phase (t : JDate) (s : CState) (e : Ev) :
    (step t s e).isScrolling =
      (match e with
       | Ev.dragBegin => true
       | Ev.dragEnd => false
       | Ev.momentumEnd => false
       | Ev.tap _ => s.isScrolling
       | Ev.extChange _ _ => s.isScrolling) := by
  cases e with
  | tap d =>
    unfold step
    dsimp only
    obtain ⟨l, _, _, _, heq⟩ := emitCenter_eq t d true
      { s with isUserInteracting := true, autoTimer := none,
               log := s.log ++ [Eff.select d], selectedDate := d }
    rw [heq]
    exact (runEffects_proj t (depsOf s) _).2.2.2.1
  | dragBegin => exact (runEffects_proj t (depsOf s) _).2.2.2.1
  | dragEnd => exact (runEffects_proj t (depsOf s) _).2.2.2.1
  | momentumEnd => exact (runEffects_proj t (depsOf s) _).2.2.2.1
  | extChange d sup => exact (runEffects_proj t (depsOf s) _).2.2.2.1

/-- No event writes the initialization latch; only the 150 ms timeout does. -/
theorem step_hasInit (t : JDate) (s : CState) (e : Ev) :
    (step t s e).hasInitialized = s.hasInitialized := by
  cases e with
  | tap d =>
    unfold step
    dsimp only
    obtain ⟨l, _, _, _, heq⟩ := emitCenter_eq t d true
      { s with isUserInteracting := true, autoTimer := none,
               log := s.log ++ [Eff.select d], selectedDate := d }
    rw [heq]
    exact (runEffects_proj t (depsOf s) _).2.2.2.2.2.1
  | dragBegin => exact (runEffects_proj t (depsOf s) _).2.2.2.2.2.1
  | dragEnd => exact (runEffects_proj t (depsOf s) _).2.2.2.2.2.1
  | momentumEnd => exact (runEffects_proj t (depsOf s) _).2.2.2.2.2.1
  | extChange d sup => exact (runEffects_proj t (depsOf s) _).2.2.2.2.2.1

/-- The drag-begin handler raises the scroll phase and cannot change the
selection or the log. -/
theorem step_dragBegin_proj (t : JDate) (s : CState) :
    (step t s Ev.dragBegin).isScrolling = true ∧
    (step t s Ev.dragBegin).selectedDate = s.selectedDate ∧
    (step t s Ev.dragBegin).log = s.log ∧
    (step t s Ev.dragBegin).disableAutoScroll = s.disableAutoScroll := by
  have hp := runEffects_proj t (depsOf s)
    { s with isUserInteracting := true, isScrolling := true, autoTimer := none }
  exact ⟨hp.2.2.2.1, hp.2.1, hp.2.2.2.2.2.2.2, hp.2.2.1⟩

/-- An effect re-run cannot arm the 150 ms timeout once the latch is set. -/
theorem runEffects_initTimer_none (t : JDate) (old : Deps) (s : CState)
    (hh : s.hasInitialized = true) (hI : s.initTimer = none) :
    (runEffects t old s).initTimer = none := by
  unfold runEffects
  rw [(autoStep_proj t old _).2.2.2.2.2.2.1, (recenterStep_proj t old _).2.2.2.2.2.2.1]
  unfold initStep
  split
  · exact hI
  · unfold initEffect
    rw [if_neg (by simp [hh])]

/-- An effect re-run preserves the one-shot-initialization invariant. -/
theorem initInv_runEffects (t : JDate) (old : Deps) (s : CState)
    (h : InitInv s) : InitInv (runEffects t old s) := by
  obtain ⟨h1, h2, h3⟩ := h
  have hp := runEffects_proj t old s
  refine ⟨?_, ?_, ?_⟩
  · intro hf
    rw [hp.2.2.2.2.2.2.2]
    exact h1 (hp.2.2.2.2.2.1 ▸ hf)
  · intro ht
    have hs : s.hasInitialized = true := hp.2.2.2.2.2.1 ▸ ht
    exact runEffects_initTimer_none t old s hs (h2 hs)
  · rw [hp.2.2.2.2.2.2.2]
    exact h3

/-- Every event handler preserves the one-shot-initialization invariant: the
handlers append only `select` entries and animated scrolls. -/
theorem initInv_step (t : JDate) (s : CState) (e : Ev)
    (h : InitInv s) : InitInv (step t s e) := by
  obtain ⟨h1, h2, h3⟩ := h
  cases e with
  | tap d =>
    unfold step
    dsimp only
    obtain ⟨l, _, hna0, _, heq⟩ := emitCenter_eq t d true
      { s with isUserInteracting := true, autoTimer := none,
               log := s.log ++ [Eff.select d], selectedDate := d }
    rw [heq]
    refine initInv_runEffects t _ _ ⟨?_, h2, ?_⟩
    · intro hf
      dsimp only at hf ⊢
      rw [nonanim_append, nonanim_append, nonanim_select, hna0 rfl, h1 hf]
    · dsimp only
      rw [nonanim_append, nonanim_append, nonanim_select, hna0 rfl]
      omega
  | dragBegin => exact initInv_runEffects t _ _ ⟨h1, h2, h3⟩
  | dragEnd => exact initInv_runEffects t _ _ ⟨h1, h2, h3⟩
  | momentumEnd => exact initInv_runEffects t _ _ ⟨h1, h2, h3⟩
  | extChange d sup => exact initInv_runEffects t _ _ ⟨h1, h2, h3⟩

/-- Each timeout kind preserves the one-shot-initialization invariant; in
particular the 150 ms timeout can only fire while the latch is down, and
firing it sets the latch with exactly one non-animated centering emitted. -/
theorem initInv_fireInit (t : JDate) (s : CState) (h : InitInv s) :
    InitInv (fireInit t s) := by
  obtain ⟨h1, h2, h3⟩ := h
  by_cases hh : s.hasInitialized = true
  · rw [fireInit_skip t s (by intro T hT; rw [h2 hh] at hT; cases hT)]
    exact ⟨h1, h2, h3⟩
  · have hh' : s.hasInitialized = false := by
      cases hx : s.hasInitialized
      · rfl
      · exact absurd hx hh
    have hlog0 := h1 hh'
    unfold fireInit
    cases hI : s.initTimer with
    | none => exact ⟨h1, h2, h3⟩
    | some T =>
      dsimp only
      by_cases hdue : T ≤ s.now
      · rw [if_pos hdue, if_pos (buildDates_length_pos t)]
        obtain ⟨l, _, _, hle, heq⟩ :=
          emitCenter_eq t s.selectedDate false { s with initTimer := none }
        rw [heq]
        refine ⟨?_, fun _ => rfl, ?_⟩
        · intro hf
          exact absurd hf (by simp)
        · dsimp only
          rw [nonanim_append, hlog0]
          omega
      · rw [if_neg hdue]
        exact ⟨h1, h2, h3⟩

theorem initInv_fireRecenter (t : JDate) (s : CState) (h : InitInv s) :
    InitInv (fireRecenter t s) := by
  obtain ⟨h1, h2, h3⟩ := h
  obtain ⟨l, _, hna0, heq⟩ := fireRecenter_char t s
  rw [heq]
  refine ⟨?_, fun ht => h2 ht, ?_⟩
  · intro hf
    dsimp only
    rw [nonanim_append, hna0, h1 hf]
  · dsimp only
    rw [nonanim_append, hna0]
    omega

theorem initInv_fireGrace (t : JDate) (s : CState) (h : InitInv s) :
    InitInv (fireGrace t s) := by
  obtain ⟨h1, h2, h3⟩ := h
  unfold fireGrace
  split
  · exact initInv_runEffects t _ _ ⟨h1, h2, h3⟩
  · exact ⟨h1, h2, h3⟩

theorem initInv_fireAuto (t : JDate) (s : CState) (h : InitInv s) :
    InitInv (fireAuto t s) := by
  obtain ⟨h1, h2, h3⟩ := h
  unfold fireAuto
  cases hA : s.autoTimer with
  | none => exact ⟨h1, h2, h3⟩
  | some T =>
    dsimp only
    by_cases hdue : T ≤ s.now
    · rw [if_pos hdue]
      split
      · exact ⟨h1, h2, h3⟩
      · obtain ⟨l, _, hna0, _, heq⟩ := emitCenter_eq t t true { s with autoTimer := none }
        rw [heq]
        refine initInv_runEffects t _ _ ⟨?_, h2, ?_⟩
        · intro hf
          dsimp only at hf ⊢
          rw [nonanim_append, nonanim_append, nonanim_select, hna0 rfl, h1 hf]
        · dsimp only
          rw [nonanim_append, nonanim_append, nonanim_select, hna0 rfl]
          omega
    · rw [if_neg hdue]
      exact ⟨h1, h2, h3⟩

theorem initInv_tick (t : JDate) (s : CState) (h : InitInv s) :
    InitInv (tick t s) := by
  unfold tick
  apply initInv_fireAuto
  apply initInv_fireGrace
  apply initInv_fireRecenter
  apply initInv_fireInit
  exact ⟨h.1, h.2.1, h.2.2⟩

theorem initInv_exec (t : JDate) (s : CState) (acts : List Act)
    (h : InitInv s) : InitInv (exec t s acts) := by
  induction acts generalizing s with
  | nil => exact h
  | cons a as ih =>
    cases a with
    | ev e => exact ih (step t s e) (initInv_step t s e h)
    | tick => exact ih (tick t s) (initInv_tick t s h)

/-- The mounted initial state satisfies the invariant. -/
theorem initState_initInv (t sel0 : JDate) (dis : Bool) :
    InitInv (initState t sel0 dis) := by
  unfold initState
  refine ⟨?_, ?_, ?_⟩
  · intro _
    rw [(autoEffect_proj t _).2.2.2.2.2.2.2.2.2,
      (recenterEffect_proj t _).2.2.2.2.2.2.2.2.2,
      (initEffect_proj t _).2.2.2.2.2.2.2.2.2]
    rfl
  · intro ht
    rw [(autoEffect_proj t _).2.2.2.2.2.1, (recenterEffect_proj t _).2.2.2.2.2.1,
      (initEffect_proj t _).2.2.2.2.2.1] at ht
    cases ht
  · rw [(autoEffect_proj t _).2.2.2.2.2.2.2.2.2,
      (recenterEffect_proj t _).2.2.2.2.2.2.2.2.2,
      (initEffect_proj t _).2.2.2.2.2.2.2.2.2]
    rw [show nonanim [] = 0 from rfl]
    omega

/-! ## The claims about the controller -/

/-- C1 — The auto-return timer never resets the anchor when a guard holds at
expiry: (1) the timeout body re-checks all four guards at execution time, and
a due timer whose guard holds is consumed with no state change beyond the
handle; (2) after `onDragBegin` with no drag-end, any amount of elapsed time
(6000 ms and beyond) leaves `SelectedDate` and the emitted `onDateSelect`
calls unchanged; (3) from any state with `SuppressAutoReturn` true, any amount
of elapsed time leaves `SelectedDate` and the emitted `onDateSelect` calls
unchanged. -/
theorem C1_guards_block_auto_return (t : JDate) :
    (∀ s : CState, ∀ T, s.autoTimer = some T → T ≤ s.now →
      autoScrollGuard s.disableAutoScroll s.selectedDate t
        s.isUserInteracting s.isScrolling = true →
      fireAuto t s = { s with autoTimer := none }) ∧
    (∀ s : CState, ∀ n : Nat,
      (ticks t n (step t s Ev.dragBegin)).selectedDate = s.selectedDate ∧
      selects (ticks t n (step t s Ev.dragBegin)).log = selects s.log) ∧
    (∀ s : CState, ∀ n : Nat, s.disableAutoScroll = true →
      (ticks t n s).selectedDate = s.selectedDate ∧
      selects (ticks t n s).log = selects s.log) := by
  refine ⟨?_, ?_, ?_⟩
  · intro s T hT hdue hguard
    unfold fireAuto
    rw [hT]
    dsimp only
    rw [if_pos hdue, if_pos hguard]
  · intro s n
    have hd := step_dragBegin_proj t s
    have hb := ticks_blocked t n (step t s Ev.dragBegin) (Or.inl hd.1)
    constructor
    · rw [hb.2.2.1, hd.2.1]
    · rw [hb.2.2.2, hd.2.2.1]
  · intro s n hdis
    have hb := ticks_blocked t n s (Or.inr hdis)
    exact ⟨hb.2.2.1, hb.2.2.2⟩

/-- Witness for `C1_guards_block_auto_return`: a due timer blocked by the
interaction flag, a drag begun on `cleanArmed` followed by 6001 ms, and a
suppressed variant of `cleanArmed` after 6001 ms. -/
theorem C1_witness :
    fireAuto anchor0 { cleanArmed with now := 6000, isUserInteracting := true } =
      { cleanArmed with now := 6000, isUserInteracting := true,
                        autoTimer := none } ∧
    (ticks anchor0 6001 (step anchor0 cleanArmed Ev.dragBegin)).selectedDate = sel2 ∧
    (ticks anchor0 6001
      { cleanArmed with disableAutoScroll := true }).selectedDate = sel2 := by
  have h := C1_guards_block_auto_return anchor0
  refine ⟨?_, ?_, ?_⟩
  · exact h.1 { cleanArmed with now := 6000, isUserInteracting := true } 6000
      rfl (by decide) (by decide)
  · exact (h.2.1 cleanArmed 6001).1
  · exact (h.2.2 { cleanArmed with disableAutoScroll := true } 6001 rfl).1

/-- C2 (amended) — On a clean idle path the auto-return fires exactly 6000 ms
after arming: nothing observable happens strictly before 6000 ms; at 6000 ms
one animated centering command for the anchor's index (7 · 84 = 588) is
issued, then the selection-changed callback is invoked with the anchor (whose
host-side handling sets `SelectedDate` to the anchor) — centering first, then
callback/set, which is the code's order. -/
theorem C2_clean_idle_fire (t : JDate) (s : CState)
    (hI : s.initTimer = none) (hR : s.recenterTimer = none)
    (hG : s.graceTimers = []) (hA : s.autoTimer = some (s.now + 6000))
    (hdis : s.disableAutoScroll = false) (hsd : isSameDay s.selectedDate t = false)
    (hiu : s.isUserInteracting = false) (hsc : s.isScrolling = false)
    (hhi : s.hasInitialized = true) :
    (∀ k, k < 6000 → ticks t k s = { s with now := s.now + k }) ∧
    ticks t 6000 s =
      { s with now := s.now + 6000, selectedDate := t, autoTimer := none,
               recenterTimer := some (s.now + 6000 + 50),
               log := s.log ++ [Eff.scroll 588 true, Eff.select t] } := by
  have hquiet : ∀ k, k < 6000 → ticks t k s = { s with now := s.now + k } := by
    intro k hk
    exact ticks_quiet t k s
      (by intro T hT; rw [hI] at hT; cases hT)
      (by intro T hT; rw [hR] at hT; cases hT)
      (by intro T hT; rw [hA] at hT; cases hT; omega)
      (by intro g hg; rw [hG] at hg; cases hg)
  refine ⟨hquiet, ?_⟩
  rw [show (6000 : Nat) = 5999 + 1 from rfl, ticks_add,
    hquiet 5999 (by omega),
    show ∀ x, ticks t 1 x = tick t x from fun x => rfl]
  have hfire := tick_autofire t { s with now := s.now + 5999 }
    (by dsimp only; exact hI) (by dsimp only; exact hR) (by dsimp only; exact hG)
    (by dsimp only; rw [hA])
    (by dsimp only; exact hdis) (by dsimp only; exact hsd)
    (by dsimp only; exact hiu) (by dsimp only; exact hsc)
    (by dsimp only; exact hhi)
  rw [hfire]

/-- Counterexample input for the order stated in C2: `preFire` sits one
millisecond before expiry with an empty log; the next millisecond the log
becomes `[scroll 588 animated, select anchor]` — the animated centering
command is issued *before* `onDateSelect` is invoked (and the host can set
`SelectedDate` only through that callback), whereas the claim states
`SelectedDate` is set first. -/
theorem C2_counterexample :
    preFire.selectedDate = sel2 ∧ preFire.log = [] ∧
    (tick anchor0 preFire).log = [Eff.scroll 588 true, Eff.select anchor0] ∧
    (tick anchor0 preFire).selectedDate = anchor0 := by
  have hfire := tick_autofire anchor0 preFire rfl rfl rfl
    (by decide) rfl (by decide) rfl rfl rfl
  rw [hfire]
  exact ⟨rfl, rfl, rfl, rfl⟩

/-- Witness for `C2_clean_idle_fire` at `cleanArmed`: quiet at 5999 ms, fired
at exactly 6000 ms with the anchor selected and the two-entry log. -/
theorem C2_witness :
    ticks anchor0 5999 cleanArmed = { cleanArmed with now := 5999 } ∧
    ticks anchor0 6000 cleanArmed =
      { cleanArmed with now := 6000, selectedDate := anchor0, autoTimer := none,
                        recenterTimer := some 6050,
                        log := [Eff.scroll 588 true, Eff.select anchor0] } := by
  have h := C2_clean_idle_fire anchor0 cleanArmed rfl rfl rfl rfl rfl
    (by decide) rfl rfl rfl
  constructor
  · exact h.1 5999 (by omega)
  · exact h.2

/-- An effect re-run leaves the auto-return timer alone (dependencies
unchanged), cancels it, or arms a fresh full 6000 ms one — never anything
else. -/
theorem runEffects_autoTimer_cases (t : JDate) (old : Deps) (s : CState) :
    (runEffects t old s).autoTimer = s.autoTimer ∨
    (runEffects t old s).autoTimer = none ∨
    (runEffects t old s).autoTimer = some (s.now + 6000) := by
  unfold runEffects autoStep
  have hX : (recenterStep t old (initStep t old s)).autoTimer = s.autoTimer := by
    rw [(recenterStep_proj t old _).2.2.2.2.2.2.2.1,
      (initStep_proj t old s).2.2.2.2.2.2.2.1]
  have hXn : (recenterStep t old (initStep t old s)).now = s.now := by
    rw [(recenterStep_proj t old _).1, (initStep_proj t old s).1]
  split
  · exact Or.inl hX
  · unfold autoEffect
    split
    · exact Or.inr (Or.inl rfl)
    · right
      right
      show some ((recenterStep t old (initStep t old s)).now + 6000) = _
      rw [hXn]

/-- C3 — At most one auto-return timer exists at any moment (the state holds
a single cancellable handle), every event's effect re-run either leaves,
cancels, or freshly re-arms it, and a second external date change at `k` ms
(0 < k < 6000) supersedes the first timer: at the first timer's original
expiry nothing has fired, and exactly one anchor reset is observed in total,
at `k + 6000` ms. -/
theorem C3_rearm_cancels (t : JDate) (s : CState) (d2 : JDate) (k : Nat)
    (hk1 : 0 < k) (hk2 : k < 6000)
    (hI : s.initTimer = none) (hR : s.recenterTimer = none)
    (hG : s.graceTimers = []) (hA : s.autoTimer = some (s.now + 6000))
    (hdis : s.disableAutoScroll = false) (hsd : isSameDay s.selectedDate t = false)
    (hiu : s.isUserInteracting = false) (hsc : s.isScrolling = false)
    (hhi : s.hasInitialized = true)
    (hne : ¬ d2 = s.selectedDate) (hsd2 : isSameDay d2 t = false) :
    (∀ s' : CState, ∀ d : JDate, ∀ sup : Bool,
      (step t s' (Ev.extChange d sup)).autoTimer = s'.autoTimer ∨
      (step t s' (Ev.extChange d sup)).autoTimer = none ∨
      (step t s' (Ev.extChange d sup)).autoTimer =
        some ((step t s' (Ev.extChange d sup)).now + 6000)) ∧
    (step t (ticks t k s) (Ev.extChange d2 false)).autoTimer =
      some (s.now + k + 6000) ∧
    (∀ m, m ≤ 6000 - k →
      selects (ticks t m (step t (ticks t k s) (Ev.extChange d2 false))).log =
        selects s.log ∧
      (ticks t m (step t (ticks t k s) (Ev.extChange d2 false))).selectedDate = d2) ∧
    selects (ticks t 6000 (step t (ticks t k s) (Ev.extChange d2 false))).log =
      selects s.log ++ [t] ∧
    (ticks t 6000 (step t (ticks t k s) (Ev.extChange d2 false))).selectedDate = t := by
  -- the quiet wait before the second change
  have hquiet : ticks t k s = { s with now := s.now + k } :=
    ticks_quiet t k s
      (by intro T hT; rw [hI] at hT; cases hT)
      (by intro T hT; rw [hR] at hT; cases hT)
      (by intro T hT; rw [hA] at hT; cases hT; omega)
      (by intro g hg; rw [hG] at hg; cases hg)
  -- the second external change
  have hstep : step t (ticks t k s) (Ev.extChange d2 false) =
      { s with now := s.now + k, selectedDate := d2, disableAutoScroll := false,
               initTimer := none, recenterTimer := some (s.now + k + 50),
               autoTimer := some (s.now + k + 6000) } := by
    rw [hquiet]
    rw [step_extChange t { s with now := s.now + k } d2
      (by dsimp only; exact hI) (by dsimp only; exact hiu)
      (by dsimp only; exact hsc) (by dsimp only; exact hhi)
      (by dsimp only; exact hne) hsd2]
  refine ⟨?_, ?_, ?_, ?_⟩
  · intro s' d sup
    have h := runEffects_autoTimer_cases t (depsOf s')
      { s' with selectedDate := d, disableAutoScroll := sup }
    rcases h with h | h | h
    · exact Or.inl h
    · exact Or.inr (Or.inl h)
    · right
      right
      have hnow := (runEffects_proj t (depsOf s')
        { s' with selectedDate := d, disableAutoScroll := sup }).1
      show (runEffects t (depsOf s')
          { s' with selectedDate := d, disableAutoScroll := sup }).autoTimer =
        some ((runEffects t (depsOf s')
          { s' with selectedDate := d, disableAutoScroll := sup }).now + 6000)
      rw [h, hnow]
  · rw [hstep]
  · intro m hm
    rw [hstep]
    have hcalm := ticks_calm t m
      { s with now := s.now + k, selectedDate := d2, disableAutoScroll := false,
               initTimer := none, recenterTimer := some (s.now + k + 50),
               autoTimer := some (s.now + k + 6000) }
      (by intro g hg; dsimp only at hg; rw [hG] at hg; cases hg)
      (by intro T hT; dsimp only at hT; cases hT; dsimp only; omega)
      (by intro T hT; dsimp only at hT; cases hT)
      (by intro T hT; dsimp only at hT; cases hT; dsimp only; omega)
    exact ⟨hcalm.2.2.1, hcalm.2.1⟩
  · rw [hstep]
    have hcalm := ticks_calm t 5999
      { s with now := s.now + k, selectedDate := d2, disableAutoScroll := false,
               initTimer := none, recenterTimer := some (s.now + k + 50),
               autoTimer := some (s.now + k + 6000) }
      (by intro g hg; dsimp only at hg; rw [hG] at hg; cases hg)
      (by intro T hT; dsimp only at hT; cases hT; dsimp only; omega)
      (by intro T hT; dsimp only at hT; cases hT)
      (by intro T hT; dsimp only at hT; cases hT; dsimp only; omega)
    have hfire := tick_autofire t (ticks t 5999
      { s with now := s.now + k, selectedDate := d2, disableAutoScroll := false,
               initTimer := none, recenterTimer := some (s.now + k + 50),
               autoTimer := some (s.now + k + 6000) })
      (by rw [hcalm.2.2.2.2.2.2.2.2.1]; rfl)
      (by rw [hcalm.2.2.2.2.2.2.2.2.2.1]
          show stale (s.now + k) 5999 (some (s.now + k + 50)) = none
          simp only [stale]
          rw [if_pos (by omega)])
      (by rw [hcalm.2.2.2.2.1]; exact hG)
      (by rw [hcalm.2.2.2.1, hcalm.1])
      (by rw [hcalm.2.2.2.2.2.2.2.1])
      (by rw [hcalm.2.1]; exact hsd2)
      (by rw [hcalm.2.2.2.2.2.1]; exact hiu)
      (by rw [hcalm.2.2.2.2.2.2.1]; exact hsc)
      (hcalm.2.2.2.2.2.2.2.2.2.2 hhi)
    rw [show (6000 : Nat) = 5999 + 1 from rfl, ticks_add,
      show ∀ x : CState, ticks t 1 x = tick t x from fun x => rfl, hfire]
    constructor
    · show selects ((ticks t 5999 _).log ++ [Eff.scroll 588 true, Eff.select t]) = _
      rw [selects_append, hcalm.2.2.1]
      rfl
    · rfl

/-- Witness for `C3_rearm_cancels`: second change to day 3 at 1000 ms on the
`cleanArmed` run — no reset at 6000 ms, one reset at 7000 ms. -/
theorem C3_witness :
    (step anchor0 (ticks anchor0 1000 cleanArmed)
      (Ev.extChange ⟨3, 0⟩ false)).autoTimer = some 7000 ∧
    selects (ticks anchor0 5000 (step anchor0 (ticks anchor0 1000 cleanArmed)
      (Ev.extChange ⟨3, 0⟩ false))).log = [] ∧
    selects (ticks anchor0 6000 (step anchor0 (ticks anchor0 1000 cleanArmed)
      (Ev.extChange ⟨3, 0⟩ false))).log = [anchor0] ∧
    (ticks anchor0 6000 (step anchor0 (ticks anchor0 1000 cleanArmed)
      (Ev.extChange ⟨3, 0⟩ false))).selectedDate = anchor0 := by
  have h := C3_rearm_cancels anchor0 cleanArmed ⟨3, 0⟩ 1000
    (by omega) (by omega) rfl rfl rfl rfl rfl (by decide) rfl rfl rfl
    (by decide) (by decide)
  refine ⟨h.2.1, ?_, ?_, h.2.2.2.2⟩
  · have := (h.2.2.1 5000 (by omega)).1
    simpa using this
  · have := h.2.2.2.1
    simpa using this

/-- After a handler that raised the interaction flag (from a render where it
was down), the effect re-run leaves no initialization and no re-centering
timeout pending (given the latch is set and no initialization timeout was
pending). -/
theorem runEffects_timers_of_interacting (t : JDate) (old : Deps) (s : CState)
    (hI : s.initTimer = none) (hhi : s.hasInitialized = true)
    (hiu : s.isUserInteracting = true) (hold : old.isUserInteracting = false) :
    (runEffects t old s).initTimer = none ∧
    (runEffects t old s).recenterTimer = none := by
  have hinit : (initStep t old s).initTimer = none := by
    unfold initStep
    split
    · exact hI
    · unfold initEffect
      rw [if_neg (by simp [hhi])]
  have hrec : (recenterStep t old (initStep t old s)).recenterTimer = none := by
    unfold recenterStep
    split
    · rename_i h
      exfalso
      have h2 := h.2.1
      rw [(initStep_proj t old s).2.2.2.2.1, hiu, hold] at h2
      exact Bool.false_ne_true h2
    · unfold recenterEffect
      rw [if_neg (by simp [(initStep_proj t old s).2.2.2.2.1, hiu])]
  have hinit2 : (recenterStep t old (initStep t old s)).initTimer = none := by
    rw [(recenterStep_proj t old _).2.2.2.2.2.2.1]
    exact hinit
  unfold runEffects
  constructor
  · rw [(autoStep_proj t old _).2.2.2.2.2.2.1]
    exact hinit2
  · rw [(autoStep_proj t old _).2.2.2.2.2.2.2.1]
    exact hrec

/-- After a tap on a clean idle state, the only pending timeouts are the
400 ms grace release (and the auto-return stays disarmed). -/
theorem step_tap_timers (t : JDate) (s : CState) (d : JDate)
    (hI : s.initTimer = none) (hhi : s.hasInitialized = true)
    (hiu : s.isUserInteracting = false) :
    (step t s (Ev.tap d)).initTimer = none ∧
    (step t s (Ev.tap d)).recenterTimer = none := by
  unfold step
  dsimp only
  obtain ⟨l, _, _, _, heq⟩ := emitCenter_eq t d true
    { s with isUserInteracting := true, autoTimer := none,
             log := s.log ++ [Eff.select d], selectedDate := d }
  rw [heq]
  exact runEffects_timers_of_interacting t (depsOf s) _ hI hhi rfl hiu

/-- C4 — A tap on the date at window index `i`: `SelectedDate` becomes `d`
synchronously, the log gains the `onDateSelect(d)` invocation followed by the
animated centering command for index `i` — both before any timer can fire
(the clock has not advanced) — the pending auto-return timer is disarmed and
stays disarmed, interaction is marked active with a 400 ms release queued,
and on a clean idle state the flag is released once those 400 ms elapse. -/
theorem C4_tap_immediacy (t : JDate) (s : CState) (d : JDate) (i : Int)
    (hfind : jsFindIndex (fun e => isSameDay e d) (buildDates t) = i)
    (hpos : 0 ≤ i) :
    (step t s (Ev.tap d)).selectedDate = d ∧
    (step t s (Ev.tap d)).log =
      s.log ++ [Eff.select d, Eff.scroll (i * itemTotalWidth) true] ∧
    (step t s (Ev.tap d)).autoTimer = none ∧
    (step t s (Ev.tap d)).isUserInteracting = true ∧
    (step t s (Ev.tap d)).graceTimers = s.graceTimers ++ [s.now + 400] ∧
    (step t s (Ev.tap d)).now = s.now ∧
    (s.graceTimers = [] → s.initTimer = none → s.recenterTimer = none →
     s.isUserInteracting = false → s.hasInitialized = true →
     s.isScrolling = false → s.disableAutoScroll = false →
     isSameDay d t = false →
     (ticks t 400 (step t s (Ev.tap d))).isUserInteracting = false) := by
  have hp := step_tap_proj t s d i hfind hpos
  refine ⟨hp.1, hp.2.1, hp.2.2.1, hp.2.2.2.1, hp.2.2.2.2.2.1, hp.2.2.2.2.2.2.1, ?_⟩
  intro hG hI hR hiu hhi hsc hdis hsd
  have ht := step_tap_timers t s d hI hhi hiu
  -- quiet for 399 ms: the only pending timeout is the grace release at +400
  have hq : ticks t 399 (step t s (Ev.tap d)) =
      { step t s (Ev.tap d) with now := (step t s (Ev.tap d)).now + 399 } := by
    refine ticks_quiet t 399 _ ?_ ?_ ?_ ?_
    · intro T hT
      rw [ht.1] at hT
      cases hT
    · intro T hT
      rw [ht.2] at hT
      cases hT
    · intro T hT
      rw [hp.2.2.1] at hT
      cases hT
    · intro g hg
      rw [hp.2.2.2.2.2.1, hG] at hg
      rw [hp.2.2.2.2.2.2.1]
      simp at hg
      omega
  rw [show (400 : Nat) = 399 + 1 from rfl, ticks_add,
    show ∀ x : CState, ticks t 1 x = tick t x from fun x => rfl, hq]
  have hfire := tick_gracefire t
    { step t s (Ev.tap d) with now := (step t s (Ev.tap d)).now + 399 }
    (by dsimp only; exact ht.1) (by dsimp only; exact ht.2)
    (by dsimp only; exact hp.2.2.1)
    (by dsimp only; rw [hp.2.2.2.2.2.1, hG, hp.2.2.2.2.2.2.1]; simp)
    (by dsimp only; exact hp.2.2.2.1)
    (by dsimp only; rw [hp.2.2.2.2.2.2.2.2]; exact hdis)
    (by dsimp only; rw [hp.2.2.2.2.1]; exact hsc)
    (by dsimp only; rw [hp.2.2.2.2.2.2.2.1]; exact hhi)
    (by dsimp only; rw [hp.1]; exact hsd)
  rw [hfire]

/-- Witness for `C4_tap_immediacy`: tapping day 5 (window index 12) on
`cleanArmed`. -/
theorem C4_witness :
    (step anchor0 cleanArmed (Ev.tap ⟨5, 0⟩)).selectedDate = (⟨5, 0⟩ : JDate) ∧
    (step anchor0 cleanArmed (Ev.tap ⟨5, 0⟩)).log =
      [Eff.select ⟨5, 0⟩, Eff.scroll 1008 true] ∧
    (step anchor0 cleanArmed (Ev.tap ⟨5, 0⟩)).autoTimer = none ∧
    (step anchor0 cleanArmed (Ev.tap ⟨5, 0⟩)).graceTimers = [400] ∧
    (ticks anchor0 400
      (step anchor0 cleanArmed (Ev.tap ⟨5, 0⟩))).isUserInteracting = false := by
  have h := C4_tap_immediacy anchor0 cleanArmed ⟨5, 0⟩ 12 (by decide) (by decide)
  refine ⟨h.1, ?_, h.2.2.1, ?_, ?_⟩
  · have := h.2.1
    simpa [cleanArmed, itemTotalWidth, DATE_ITEM_WIDTH, DATE_ITEM_MARGIN]
      using this
  · have := h.2.2.2.2.1
    simpa [cleanArmed] using this
  · exact h.2.2.2.2.2.2 rfl rfl rfl rfl rfl rfl rfl (by decide)

/-- The mounted initial state: latch down, 150 ms initialization timeout
armed, no re-centering pending, and an auto-return timer only if the guards
allow. -/
theorem initState_fields (t sel0 : JDate) (dis : Bool) :
    (initState t sel0 dis).now = 0 ∧
    (initState t sel0 dis).selectedDate = sel0 ∧
    (initState t sel0 dis).hasInitialized = false ∧
    (initState t sel0 dis).initTimer = some 150 ∧
    (initState t sel0 dis).recenterTimer = none ∧
    (initState t sel0 dis).graceTimers = [] ∧
    (initState t sel0 dis).log = [] ∧
    ((initState t sel0 dis).autoTimer = none ∨
      (initState t sel0 dis).autoTimer = some 6000) := by
  have h1 : initState t sel0 dis = autoEffect t
      { now := 0, selectedDate := sel0, disableAutoScroll := dis,
        isScrolling := false, isUserInteracting := false, hasInitialized := false,
        initTimer := some 150, recenterTimer := none, autoTimer := none,
        graceTimers := [], log := [] } := rfl
  rw [h1]
  have hp := autoEffect_proj t
    { now := 0, selectedDate := sel0, disableAutoScroll := dis,
      isScrolling := false, isUserInteracting := false, hasInitialized := false,
      initTimer := some 150, recenterTimer := none, autoTimer := none,
      graceTimers := [], log := [] }
  refine ⟨hp.1, hp.2.1, hp.2.2.2.2.2.1, hp.2.2.2.2.2.2.1, hp.2.2.2.2.2.2.2.1,
    hp.2.2.2.2.2.2.2.2.1, hp.2.2.2.2.2.2.2.2.2, ?_⟩
  unfold autoEffect
  split
  · left
    rfl
  · right
    rfl

/-- What a tap does to the flags and timers, for any tapped date (also one
outside the window). -/
theorem step_tap_flags (t : JDate) (s : CState) (d : JDate) :
    (step t s (Ev.tap d)).selectedDate = d ∧
    (step t s (Ev.tap d)).autoTimer = none ∧
    (step t s (Ev.tap d)).isUserInteracting = true ∧
    (step t s (Ev.tap d)).isScrolling = s.isScrolling ∧
    (step t s (Ev.tap d)).graceTimers = s.graceTimers ++ [s.now + 400] ∧
    (step t s (Ev.tap d)).now = s.now ∧
    (step t s (Ev.tap d)).hasInitialized = s.hasInitialized ∧
    (step t s (Ev.tap d)).disableAutoScroll = s.disableAutoScroll := by
  unfold step
  dsimp only
  obtain ⟨l, _, _, _, heq⟩ := emitCenter_eq t d true
    { s with isUserInteracting := true, autoTimer := none,
             log := s.log ++ [Eff.select d], selectedDate := d }
  rw [heq]
  have hp := runEffects_proj t (depsOf s)
    { s with isUserInteracting := true, autoTimer := none,
             log := (s.log ++ [Eff.select d]) ++ l,
             selectedDate := d, graceTimers := s.graceTimers ++ [s.now + 400] }
  have hauto := runEffects_auto_none t (depsOf s)
    { s with isUserInteracting := true, autoTimer := none,
             log := (s.log ++ [Eff.select d]) ++ l,
             selectedDate := d, graceTimers := s.graceTimers ++ [s.now + 400] }
    rfl rfl
  exact ⟨hp.2.1, hauto, hp.2.2.2.2.1, hp.2.2.2.1, hp.2.2.2.2.2.2.1, hp.1,
    hp.2.2.2.2.2.1, hp.2.2.1⟩

/-- C5 — First-layout centering is one-shot: over every run from the mounted
initial state at most one non-animated centering is ever emitted; the
`hasInitialized` latch, once set, survives every event and every millisecond;
and on a quiet mount with the selected date at window index `i` the single
non-animated centering on it fires at exactly 150 ms, setting the latch —
nothing before. -/
theorem C5_init_once (t sel0 : JDate) (dis : Bool) :
    (∀ acts : List Act, nonanim (exec t (initState t sel0 dis) acts).log ≤ 1) ∧
    (∀ s : CState, ∀ a : Act, s.hasInitialized = true →
      (exec t s [a]).hasInitialized = true) ∧
    (∀ i : Int, jsFindIndex (fun e => isSameDay e sel0) (buildDates t) = i →
      0 ≤ i →
      (∀ k, k < 150 → (ticks t k (initState t sel0 dis)).log = [] ∧
        (ticks t k (initState t sel0 dis)).hasInitialized = false) ∧
      (ticks t 150 (initState t sel0 dis)).log =
        [Eff.scroll (i * itemTotalWidth) false] ∧
      (ticks t 150 (initState t sel0 dis)).hasInitialized = true) := by
  have hf := initState_fields t sel0 dis
  refine ⟨?_, ?_, ?_⟩
  · intro acts
    exact (initInv_exec t _ acts (initState_initInv t sel0 dis)).2.2
  · intro s a hh
    cases a with
    | ev e =>
      show (step t s e).hasInitialized = true
      rw [step_hasInit]
      exact hh
    | tick =>
      exact tick_hasInit_mono t s hh
  · intro i hfind hpos
    have hquiet : ∀ k, k < 150 →
        ticks t k (initState t sel0 dis) =
          { initState t sel0 dis with now := k } := by
      intro k hk
      have := ticks_quiet t k (initState t sel0 dis)
        (by intro T hT; rw [hf.2.2.2.1] at hT; cases hT; rw [hf.1]; omega)
        (by intro T hT; rw [hf.2.2.2.2.1] at hT; cases hT)
        (by intro T hT
            rcases hf.2.2.2.2.2.2.2 with h | h
            · rw [h] at hT; cases hT
            · rw [h] at hT; cases hT; rw [hf.1]; omega)
        (by intro g hg; rw [hf.2.2.2.2.2.1] at hg; cases hg)
      rw [this, hf.1]
      simp
    have h150 : ticks t 150 (initState t sel0 dis) =
        { initState t sel0 dis with
            now := 150, initTimer := none, hasInitialized := true,
            log := (initState t sel0 dis).log ++
              [Eff.scroll (i * itemTotalWidth) false] } := by
      rw [show (150 : Nat) = 149 + 1 from rfl, ticks_add,
        show ∀ x : CState, ticks t 1 x = tick t x from fun x => rfl,
        hquiet 149 (by omega)]
      rw [tick_initfire t { initState t sel0 dis with now := 149 } i
        (by dsimp only; rw [hf.2.2.2.1])
        (by dsimp only; exact hf.2.2.2.2.1)
        (by dsimp only; exact hf.2.2.2.2.2.1)
        (by intro T hT
            dsimp only at hT
            rcases hf.2.2.2.2.2.2.2 with h | h
            · rw [h] at hT; cases hT
            · rw [h] at hT; cases hT; dsimp only; omega)
        (by dsimp only; rw [hf.2.1]; exact hfind) hpos]
    refine ⟨?_, ?_, ?_⟩
    · intro k hk
      rw [hquiet k hk]
      exact ⟨hf.2.2.2.2.2.2.1, hf.2.2.1⟩
    · rw [h150]
      dsimp only
      rw [hf.2.2.2.2.2.2.1]
      simp
    · rw [h150]

/-- Witness for `C5_init_once`: a mounted run with selection at day 2
(window index 9, offset 756), one tick of part 2 on `cleanArmed`, and the
quiet 150 ms first-layout centering. -/
theorem C5_witness :
    nonanim (exec anchor0 (initState anchor0 sel2 false) [Act.tick]).log ≤ 1 ∧
    (exec anchor0 cleanArmed [Act.tick]).hasInitialized = true ∧
    (ticks anchor0 149 (initState anchor0 sel2 false)).log = [] ∧
    (ticks anchor0 150 (initState anchor0 sel2 false)).log =
      [Eff.scroll 756 false] ∧
    (ticks anchor0 150 (initState anchor0 sel2 false)).hasInitialized = true := by
  have h := C5_init_once anchor0 sel2 false
  have h3 := h.2.2 9 (by decide) (by decide)
  refine ⟨h.1 [Act.tick], h.2.1 cleanArmed Act.tick rfl,
    (h3.1 149 (by omega)).1, ?_, h3.2.2⟩
  have := h3.2.1
  simpa [itemTotalWidth, DATE_ITEM_WIDTH, DATE_ITEM_MARGIN] using this

/-- C10 — A tap never changes `InteractionPhase`: `isScrolling` is untouched
by `handleDatePress`, raised only by `handleScrollBeginDrag`, never raised by
the passage of time; and after a tap on a clean idle non-anchor date,
auto-return becomes eligible again solely through the 400 ms grace expiry —
the flag drops and a fresh 6000 ms timer is armed with no drag-end or
momentum-end event. -/
theorem C10_tap_phase (t : JDate) :
    (∀ s : CState, ∀ d : JDate,
      (step t s (Ev.tap d)).isScrolling = s.isScrolling) ∧
    (∀ s : CState, (step t s Ev.dragBegin).isScrolling = true) ∧
    (∀ s : CState, ∀ e : Ev, (step t s e).isScrolling = true →
      s.isScrolling = true ∨ e = Ev.dragBegin) ∧
    (∀ s : CState, (tick t s).isScrolling = s.isScrolling) ∧
    (∀ s : CState, ∀ d : JDate,
      s.isScrolling = false → s.isUserInteracting = false →
      s.graceTimers = [] → s.initTimer = none → s.recenterTimer = none →
      s.hasInitialized = true → s.disableAutoScroll = false →
      isSameDay d t = false →
      (ticks t 400 (step t s (Ev.tap d))).isUserInteracting = false ∧
      (ticks t 400 (step t s (Ev.tap d))).autoTimer =
        some (s.now + 400 + 6000)) := by
  refine ⟨?_, ?_, ?_, ?_, ?_⟩
  · intro s d
    exact (step_tap_flags t s d).2.2.2.1
  · intro s
    exact (step_dragBegin_proj t s).1
  · intro s e h
    have hp := step_phase t s e
    cases e with
    | tap d => rw [hp] at h; exact Or.inl h
    | dragBegin => exact Or.inr rfl
    | dragEnd => rw [hp] at h; exact absurd h (by simp)
    | momentumEnd => rw [hp] at h; exact absurd h (by simp)
    | extChange d sup => rw [hp] at h; exact Or.inl h
  · intro s
    exact tick_isScrolling t s
  · intro s d hsc hiu hG hI hR hhi hdis hsd
    have hp := step_tap_flags t s d
    have ht := step_tap_timers t s d hI hhi hiu
    have hq : ticks t 399 (step t s (Ev.tap d)) =
        { step t s (Ev.tap d) with now := (step t s (Ev.tap d)).now + 399 } := by
      refine ticks_quiet t 399 _ ?_ ?_ ?_ ?_
      · intro T hT
        rw [ht.1] at hT
        cases hT
      · intro T hT
        rw [ht.2] at hT
        cases hT
      · intro T hT
        rw [hp.2.1] at hT
        cases hT
      · intro g hg
        rw [hp.2.2.2.2.1, hG] at hg
        rw [hp.2.2.2.2.2.1]
        simp at hg
        omega
    rw [show (400 : Nat) = 399 + 1 from rfl, ticks_add,
      show ∀ x : CState, ticks t 1 x = tick t x from fun x => rfl, hq]
    have hfire := tick_gracefire t
      { step t s (Ev.tap d) with now := (step t s (Ev.tap d)).now + 399 }
      (by dsimp only; exact ht.1) (by dsimp only; exact ht.2)
      (by dsimp only; exact hp.2.1)
      (by dsimp only; rw [hp.2.2.2.2.1, hG, hp.2.2.2.2.2.1]; simp)
      (by dsimp only; exact hp.2.2.1)
      (by dsimp only; rw [hp.2.2.2.2.2.2.2]; exact hdis)
      (by dsimp only; rw [hp.2.2.2.1]; exact hsc)
      (by dsimp only; rw [hp.2.2.2.2.2.2.1]; exact hhi)
      (by dsimp only; rw [hp.1]; exact hsd)
    rw [hfire]
    refine ⟨rfl, ?_⟩
    dsimp only
    rw [hp.2.2.2.2.2.1]

/-- Witness for `C10_tap_phase`: tapping day 5 on `cleanArmed` leaves
`isScrolling` down, `dragBegin` raises it, a tick preserves it, and the tap's
grace expiry re-arms auto-return at 6400 ms with no drag event. -/
theorem C10_witness :
    (step anchor0 cleanArmed (Ev.tap ⟨5, 0⟩)).isScrolling = false ∧
    (step anchor0 cleanArmed Ev.dragBegin).isScrolling = true ∧
    (tick anchor0 cleanArmed).isScrolling = false ∧
    (ticks anchor0 400
      (step anchor0 cleanArmed (Ev.tap ⟨5, 0⟩))).isUserInteracting = false ∧
    (ticks anchor0 400
      (step anchor0 cleanArmed (Ev.tap ⟨5, 0⟩))).autoTimer = some 6400 := by
  have h := C10_tap_phase anchor0
  have h5 := h.2.2.2.2 cleanArmed ⟨5, 0⟩ rfl rfl rfl rfl rfl rfl rfl (by decide)
  exact ⟨h.1 cleanArmed ⟨5, 0⟩, h.2.1 cleanArmed, h.2.2.2.1 cleanArmed,
    h5.1, h5.2⟩

/-- C9 — contradicted by the code: `const today = new Date()` (line 37) is
re-evaluated on every render, while the window is generated once at mount.
With the device on day 0 at mount, the anchor sits at window index 7; but on
a render after midnight (device day 1), with `SelectedDate` still the
construction anchor and everything idle, the auto-scroll guard — which per
the claim should compare against the immutable construction anchor and
block — computes false and arms, and its expiry would center window index 8
and select day 1; eight days later the re-evaluated `today` has left the
window entirely, so the expiry would change the selection while the centering
silently no-ops.  The anchor is therefore not immutable across the
controller's lifetime. -/
theorem C9_anchor_not_immutable :
    (buildDates anchor0).getD 7 ⟨0, 0⟩ = anchor0 ∧
    autoScrollGuard false anchor0 anchor0 false false = true ∧
    autoScrollGuard false anchor0 ⟨1, 0⟩ false false = false ∧
    centerDateInScroll (buildDates anchor0) ⟨1, 0⟩ true =
      some ⟨8 * itemTotalWidth, true⟩ ∧
    centerDateInScroll (buildDates anchor0) ⟨8, 0⟩ true = none := by
  decide
